import Mathlib

/-!
Verification development for the enclave-bot trading core.

Shallow embedding of `src/core/indicators/TechnicalIndicators.ts`,
`src/core/strategy/BreakoutStrategy.ts` and the order-status mapping of
`src/core/exchange/EnclaveClient.ts`.

Modelling conventions:
* `Decimal` (decimal.js arbitrary-precision decimals) is modelled as `ℚ`.
* A TypeScript function that can `throw` is modelled as an `Option`-returning
  function (`none` = an exception propagates to the caller's `catch`).
* Rational division by zero in Lean yields `0`; wherever the source can
  actually divide by zero (decimal.js yields `NaN`/`Infinity` there), the
  embedding guards that case explicitly so the two semantics agree.
* Timestamps (`Date.now()` milliseconds) are modelled as `ℤ`.
* The per-symbol mutable `Map`s of `BreakoutStrategy` are modelled as
  functions `String → Option _` inside an explicit state record.
-/

namespace EnclaveBot

/-- Order side, from `src/core/exchange/types.ts` (`enum OrderSide`). -/
inductive OrderSide where
  | BUY
  | SELL
deriving DecidableEq, Repr

/-- Order status, from `src/core/exchange/types.ts` (`enum OrderStatus`).
Note: the enum has no `UNKNOWN` member. -/
inductive OrderStatus where
  | PENDING
  | OPEN
  | FILLED
  | PARTIALLY_FILLED
  | CANCELLED
  | REJECTED
deriving DecidableEq, Repr

/-- One price bucket, from `TechnicalIndicators.ts` (`interface PriceData`).
The timestamp is irrelevant to every claim and is modelled as an integer. -/
structure PriceData where
  high : ℚ
  low : ℚ
  close : ℚ
  volume : ℚ
  timestamp : ℤ
deriving DecidableEq, Repr

/-- Default bucket used for (unreachable) out-of-bounds array reads. -/
def defaultPriceData : PriceData := ⟨0, 0, 0, 0, 0⟩

/-- JS `array.slice(-k)`: the last `k` elements (whole array when `k ≥ length`). -/
def sliceLast (k : ℕ) (l : List α) : List α := l.drop (l.length - k)

/-- JS `array.slice(0, -1)`: all but the last element. -/
def dropLastOne (l : List α) : List α := l.take (l.length - 1)

/-- JS `array[array.length - 1]` with a default for the empty case. -/
def lastD (l : List α) (d : α) : α := (l.getLast?).getD d

/-- `Decimal.max(...xs)` over a non-empty array (0 for the empty case,
which no caller reaches). -/
def listMax : List ℚ → ℚ
  | [] => 0
  | x :: xs => xs.foldl max x

/-- `Decimal.min(...xs)` over a non-empty array (0 for the empty case,
which no caller reaches). -/
def listMin : List ℚ → ℚ
  | [] => 0
  | x :: xs => xs.foldl min x

/-- Sum of a list of rationals (`reduce((sum, p) => sum.plus(p), 0)`). -/
def listSum (l : List ℚ) : ℚ := l.foldl (· + ·) 0

/-- Sequencing of a loop whose body can throw: `none` as soon as one
element fails, mirroring exception propagation out of a TS `for` loop. -/
def optTraverse (f : α → Option β) : List α → Option (List β)
  | [] => some []
  | a :: as =>
    match f a, optTraverse f as with
    | some b, some bs => some (b :: bs)
    | _, _ => none

namespace TechnicalIndicators

/-- `TechnicalIndicators.calculateAverageVolume`. -/
def calculateAverageVolume (prices : List PriceData) (periods : ℕ) : Option ℚ :=
  if prices.length < periods then none
  else
    some (listSum ((sliceLast periods prices).map (·.volume)) / periods)

/-- `TechnicalIndicators.calculateSMA`. -/
def calculateSMA (prices : List ℚ) (periods : ℕ) : Option ℚ :=
  if prices.length < periods then none
  else some (listSum (sliceLast periods prices) / periods)

/-- `TechnicalIndicators.calculateEMA`: SMA of the first `periods` prices,
then the standard EMA recurrence over the remaining prices with
multiplier `2 / (periods + 1)`. -/
def calculateEMA (prices : List ℚ) (periods : ℕ) : Option ℚ :=
  if prices.length < periods then none
  else
    match calculateSMA (prices.take periods) periods with
    | none => none
    | some ema0 =>
      some ((prices.drop periods).foldl
        (fun ema p => p * (2 / (periods + 1)) + ema * (1 - 2 / (periods + 1))) ema0)

/-- `TechnicalIndicators.calculateRSI`. -/
def calculateRSI (prices : List PriceData) (periods : ℕ) : Option ℚ :=
  if prices.length < periods + 1 then none
  else
    let changes := List.zipWith (fun cur prev => cur.close - prev.close) (prices.drop 1) prices
    let recentChanges := sliceLast periods changes
    let gains := recentChanges.filter (0 < ·)
    let losses := (recentChanges.filter (· < 0)).map (|·|)
    let avgGain := listSum gains / periods
    let avgLoss := listSum losses / periods
    if avgLoss = 0 then some 100
    else
      some (100 - 100 / (avgGain / avgLoss + 1))

/-- Result of `calculateBollingerBands`. -/
structure BollingerBands where
  upper : ℚ
  middle : ℚ
  lower : ℚ
deriving DecidableEq, Repr

/-- `TechnicalIndicators.calculateBollingerBands`, parameterised by the
square-root function `sq` (decimal.js `Decimal.sqrt` is a rounded
approximation, so it is kept abstract; every claim below holds for an
arbitrary `sq`). -/
def calculateBollingerBands (sq : ℚ → ℚ) (prices : List ℚ) (periods : ℕ)
    (stdDev : ℚ) : Option BollingerBands :=
  if prices.length < periods then none
  else
    match calculateSMA prices periods with
    | none => none
    | some sma =>
      let recentPrices := sliceLast periods prices
      let variance := listSum (recentPrices.map (fun p => (p - sma) ^ 2)) / periods
      let standardDeviation := sq variance
      some ⟨sma + standardDeviation * stdDev, sma, sma - standardDeviation * stdDev⟩

/-- Swing-structure classification of `detectPriceStructure`. -/
inductive PriceStructure where
  | HIGHER_HIGHS
  | LOWER_LOWS
  | CHOPPY
deriving DecidableEq, Repr

/-- `TechnicalIndicators.detectPriceStructure`. -/
def detectPriceStructure (prices : List PriceData) (lookback : ℕ) : PriceStructure :=
  if prices.length < lookback * 2 then .CHOPPY
  else
    let recentPrices := sliceLast (lookback * 2) prices
    let firstHalf := recentPrices.take lookback
    let secondHalf := recentPrices.drop lookback
    let firstHigh := listMax (firstHalf.map (·.high))
    let firstLow := listMin (firstHalf.map (·.low))
    let secondHigh := listMax (secondHalf.map (·.high))
    let secondLow := listMin (secondHalf.map (·.low))
    if firstHigh < secondHigh ∧ firstLow < secondLow then .HIGHER_HIGHS
    else if secondHigh < firstHigh ∧ secondLow < firstLow then .LOWER_LOWS
    else .CHOPPY

/-- Result of `calculateMACD`. -/
structure MACDResult where
  macd : ℚ
  signalLine : ℚ
  histogram : ℚ
deriving DecidableEq, Repr

/-- `TechnicalIndicators.calculateMACD` with the default periods
`fast = 12`, `slow = 26`, `signal = 9`. The inner loop runs
`i = slowPeriod, …, prices.length` (inclusive), recomputing both EMAs on the
prefix `prices.slice(0, i)`. -/
def calculateMACD (prices : List ℚ) : Option MACDResult :=
  if prices.length < 26 + 9 then none
  else
    match calculateEMA prices 12, calculateEMA prices 26 with
    | some fastEMA, some slowEMA =>
      let macdLine := fastEMA - slowEMA
      match optTraverse
          (fun i =>
            match calculateEMA (prices.take i) 12, calculateEMA (prices.take i) 26 with
            | some fast, some slow => some (fast - slow)
            | _, _ => none)
          (List.range' 26 (prices.length - 26 + 1)) with
      | none => none
      | some macdValues =>
        match (if 9 ≤ macdValues.length then calculateEMA macdValues 9 else some macdLine) with
        | none => none
        | some signalLine => some ⟨macdLine, signalLine, macdLine - signalLine⟩
    | _, _ => none

/-- Result of `calculateStochastic`. -/
structure Stochastic where
  k : ℚ
  d : ℚ
deriving DecidableEq, Repr

/-- `TechnicalIndicators.calculateStochastic` with the default periods
`kPeriod = 14`, `dPeriod = 3`. A zero high–low range yields `%K = 50`. -/
def calculateStochastic (prices : List PriceData) : Option Stochastic :=
  if prices.length < 14 + 3 then none
  else
    let kValues := (List.range' (14 - 1) (prices.length - (14 - 1))).map
      (fun i =>
        let periodPrices := (prices.drop (i - 14 + 1)).take 14
        let highest := listMax (periodPrices.map (·.high))
        let lowest := listMin (periodPrices.map (·.low))
        let currentClose := (lastD periodPrices defaultPriceData).close
        let range := highest - lowest
        if range = 0 then (50 : ℚ)
        else (currentClose - lowest) / range * 100)
    let currentK := lastD kValues 0
    let recentKs := sliceLast 3 kValues
    some ⟨currentK, listSum recentKs / 3⟩

/-- Trend classification of `detectEMAStack`. -/
inductive Trend where
  | BULLISH
  | BEARISH
  | SIDEWAYS
deriving DecidableEq, Repr

/-- `TechnicalIndicators.detectEMAStack`: full 20/50/200 EMA stack.
The inner matches return `SIDEWAYS` on `none`, which is unreachable because
the length guard makes all three EMAs defined. -/
def detectEMAStack (prices : List ℚ) : Trend :=
  if prices.length < 200 then .SIDEWAYS
  else
    match calculateEMA prices 20, calculateEMA prices 50, calculateEMA prices 200 with
    | some ema20, some ema50, some ema200 =>
      if ema50 < ema20 ∧ ema200 < ema50 then .BULLISH
      else if ema20 < ema50 ∧ ema50 < ema200 then .BEARISH
      else .SIDEWAYS
    | _, _, _ => .SIDEWAYS

/-- Proposed trade direction used by the momentum scorer. -/
inductive Direction where
  | LONG
  | SHORT
deriving DecidableEq, Repr

/-- RSI sub-score of `calculateMomentumScore` (weight 0.20). -/
def rsiSubScore (direction : Direction) (rsi : ℚ) : ℚ :=
  match direction with
  | .LONG =>
    if 30 ≤ rsi ∧ rsi ≤ 50 then 0.20
    else if 50 < rsi ∧ rsi ≤ 60 then 0.15
    else if 60 < rsi ∧ rsi ≤ 70 then 0.08
    else if rsi < 30 then 0.12
    else 0
  | .SHORT =>
    if 50 ≤ rsi ∧ rsi ≤ 70 then 0.20
    else if 40 ≤ rsi ∧ rsi < 50 then 0.15
    else if 30 ≤ rsi ∧ rsi < 40 then 0.08
    else if 70 < rsi then 0.12
    else 0

/-- MACD sub-score of `calculateMomentumScore` (weight 0.20). -/
def macdSubScore (direction : Direction) (m : MACDResult) : ℚ :=
  match direction with
  | .LONG =>
    if m.signalLine < m.macd ∧ 0 < m.histogram then 0.20
    else if m.signalLine < m.macd then 0.12
    else if 0 < m.histogram then 0.08
    else 0
  | .SHORT =>
    if m.macd < m.signalLine ∧ m.histogram < 0 then 0.20
    else if m.macd < m.signalLine then 0.12
    else if m.histogram < 0 then 0.08
    else 0

/-- EMA-alignment sub-score of `calculateMomentumScore` (weight 0.25). -/
def emaSubScore (direction : Direction) (currentPrice ema20 ema50 ema200 : ℚ) : ℚ :=
  match direction with
  | .LONG =>
    if ema20 < currentPrice ∧ ema50 < ema20 ∧ ema200 < ema50 then 0.25
    else if ema20 < currentPrice ∧ ema50 < ema20 then 0.18
    else if ema20 < currentPrice then 0.10
    else 0
  | .SHORT =>
    if currentPrice < ema20 ∧ ema20 < ema50 ∧ ema50 < ema200 then 0.25
    else if currentPrice < ema20 ∧ ema20 < ema50 then 0.18
    else if currentPrice < ema20 then 0.10
    else 0

/-- Bollinger-position sub-score of `calculateMomentumScore` (weight 0.15).
When the band range is zero the source's decimal division produces `NaN`
(all comparisons false, score 0); the guard reproduces that. -/
def bollingerSubScore (direction : Direction) (currentPrice : ℚ) (b : BollingerBands) : ℚ :=
  let bbRange := b.upper - b.lower
  if bbRange = 0 then 0
  else
    let pricePosition := (currentPrice - b.lower) / bbRange
    match direction with
    | .LONG =>
      if pricePosition ≤ 0.3 then 0.15
      else if pricePosition ≤ 0.5 then 0.10
      else if pricePosition ≤ 0.7 then 0.05
      else 0
    | .SHORT =>
      if 0.7 ≤ pricePosition then 0.15
      else if 0.5 ≤ pricePosition then 0.10
      else if 0.3 ≤ pricePosition then 0.05
      else 0

/-- Stochastic sub-score of `calculateMomentumScore` (weight 0.20). -/
def stochasticSubScore (direction : Direction) (s : Stochastic) : ℚ :=
  match direction with
  | .LONG =>
    if s.d < s.k ∧ s.k < 80 then
      if s.k < 30 then 0.20
      else if s.k < 50 then 0.15
      else 0.08
    else if s.k < 30 then 0.10
    else 0
  | .SHORT =>
    if s.k < s.d ∧ 20 < s.k then
      if 70 < s.k then 0.20
      else if 50 < s.k then 0.15
      else 0.08
    else if 70 < s.k then 0.10
    else 0

/-- Result of `calculateMomentumScore`: the composite score and the
per-indicator component record (an insertion-ordered string-keyed map). -/
structure MomentumResult where
  score : ℚ
  components : List (String × ℚ)
deriving DecidableEq, Repr

/-- `TechnicalIndicators.calculateMomentumScore`: composite 0–1 momentum
confidence for a proposed direction. Fewer than 200 samples short-circuits
to score 0 with an empty component record. -/
def calculateMomentumScore (sq : ℚ → ℚ) (prices : List PriceData)
    (direction : Direction) : Option MomentumResult :=
  if prices.length < 200 then some ⟨0, []⟩
  else
    let closePrices := prices.map (·.close)
    let currentPrice := lastD closePrices 0
    match calculateRSI prices 14 with
    | none => none
    | some rsi =>
      let rsiScore := rsiSubScore direction rsi
      match calculateMACD closePrices with
      | none => none
      | some macd =>
        let macdScore := macdSubScore direction macd
        match calculateEMA closePrices 20, calculateEMA closePrices 50,
            calculateEMA closePrices 200 with
        | some ema20, some ema50, some ema200 =>
          let emaScore := emaSubScore direction currentPrice ema20 ema50 ema200
          match calculateBollingerBands sq closePrices 20 2 with
          | none => none
          | some bollinger =>
            let bbScore := bollingerSubScore direction currentPrice bollinger
            match calculateStochastic prices with
            | none => none
            | some stochastic =>
              let stochScore := stochasticSubScore direction stochastic
              some ⟨rsiScore + macdScore + emaScore + bbScore + stochScore,
                [("rsi", rsiScore), ("macd", macdScore), ("ema", emaScore),
                 ("bollinger", bbScore), ("stochastic", stochScore)]⟩
        | _, _, _ => none

end TechnicalIndicators

open TechnicalIndicators

/-! ### BreakoutStrategy: constants and state

From `src/core/strategy/BreakoutStrategy.ts`. -/

/-- `TAKE_PROFIT_THRESHOLD = 1.3` (percent). -/
def TAKE_PROFIT_THRESHOLD : ℚ := 1.3

/-- `STOP_LOSS_PERCENT = 5`. -/
def STOP_LOSS_PERCENT : ℚ := 5

/-- `MOMENTUM_THRESHOLD = 0.60`. -/
def MOMENTUM_THRESHOLD : ℚ := 0.60

/-- `VOLUME_MULTIPLIER = 1.5`. -/
def VOLUME_MULTIPLIER : ℚ := 1.5

/-- `LOSS_COOLDOWN_MS = 20 * 60 * 1000` (20 minutes). -/
def LOSS_COOLDOWN_MS : ℤ := 20 * 60 * 1000

/-- `FAILED_SIGNAL_COOLDOWN_MS = 5 * 60 * 1000` (5 minutes). -/
def FAILED_SIGNAL_COOLDOWN_MS : ℤ := 5 * 60 * 1000

/-- `getTrailingStopPercent`: fixed `STOP_LOSS_PERCENT` for every pair. -/
def getTrailingStopPercent (_symbol : String) : ℚ := STOP_LOSS_PERCENT

/-- `interface Signal` of `BreakoutStrategy.ts`. -/
structure Signal where
  symbol : String
  side : OrderSide
  entryPrice : ℚ
  stopLoss : ℚ
  takeProfit : Option ℚ
  confidence : ℚ
  reason : String
deriving DecidableEq, Repr

/-- One entry of the `trailingStops` map: `{high: Decimal; stop: Decimal}`.
For a short position `high` tracks the lowest price seen (the source reuses
the field name). -/
structure TrailingStop where
  high : ℚ
  stop : ℚ
deriving DecidableEq, Repr

/-- One record of the persisted `trailing_stops.json` file
(`interface PersistedTrailingStop`; `updatedAt` is irrelevant and omitted). -/
structure PersistedTrailingStop where
  high : ℚ
  stop : ℚ
  partialProfitTaken : Bool
deriving DecidableEq, Repr

/-- Point update of a string-keyed map (`Map.set`). -/
def mapSet (m : String → Option β) (k : String) (v : β) : String → Option β :=
  fun x => if x = k then some v else m x

/-- Point removal from a string-keyed map (`Map.delete`). -/
def mapDel (m : String → Option β) (k : String) : String → Option β :=
  fun x => if x = k then none else m x

/-- The per-symbol mutable state of one `BreakoutStrategy` instance, plus a
mirror of the persisted trailing-stop file. -/
structure StratState where
  priceHistory : String → List PriceData
  activeSignals : String → Option Signal
  trailingStops : String → Option TrailingStop
  lossCooldowns : String → Option ℤ
  failedSignalCooldowns : String → Option ℤ
  partialProfitTaken : String → Bool
  positionOpenedAt : String → Option ℤ
  lastTrailingStopCheck : String → Option ℤ
  persistedFile : String → Option PersistedTrailingStop

/-- `saveTrailingStops`: serialise the whole `trailingStops` map (together
with each symbol's `partialProfitTaken` flag) to the persistence file. -/
def saveTrailingStops (st : StratState) : StratState :=
  { st with persistedFile := fun k =>
      (st.trailingStops k).map (fun t => ⟨t.high, t.stop, st.partialProfitTaken k⟩) }

/-- `loadTrailingStops`: on startup, load every persisted record verbatim into
`trailingStops`, and restore `partialProfitTaken` for records that had it set. -/
def loadTrailingStops (disk : String → Option PersistedTrailingStop)
    (st : StratState) : StratState :=
  { st with
    trailingStops := fun k =>
      match disk k with
      | some r => some ⟨r.high, r.stop⟩
      | none => st.trailingStops k
    partialProfitTaken := fun k =>
      match disk k with
      | some r => r.partialProfitTaken || st.partialProfitTaken k
      | none => st.partialProfitTaken k }

/-- `removePersistedTrailingStop`: drop the symbol's trailing stop and
rewrite the persistence file. -/
def removePersistedTrailingStop (st : StratState) (symbol : String) : StratState :=
  saveTrailingStops { st with trailingStops := mapDel st.trailingStops symbol }

/-- The loss-cooldown test of `generateSignal`/`executeSignal`: a stored
timestamp blocks while `now - ts < LOSS_COOLDOWN_MS`. -/
def lossCooldownActive (st : StratState) (symbol : String) (now : ℤ) : Prop :=
  match st.lossCooldowns symbol with
  | some ts => now - ts < LOSS_COOLDOWN_MS
  | none => False

instance (st : StratState) (symbol : String) (now : ℤ) :
    Decidable (lossCooldownActive st symbol now) := by
  unfold lossCooldownActive
  exact match st.lossCooldowns symbol with
    | some _ => inferInstanceAs (Decidable (_ < _))
    | none => inferInstanceAs (Decidable False)

/-- The generator's loss-cooldown gate exactly as the source evaluates it:
`if (cooldownTimestamp)` is a JS truthiness test, so the gate blocks iff an
entry exists, its timestamp is nonzero (truthy), and it is unexpired. -/
def lossCooldownBlocks (st : StratState) (symbol : String) (now : ℤ) : Prop :=
  match st.lossCooldowns symbol with
  | some ts => ts ≠ 0 ∧ now - ts < LOSS_COOLDOWN_MS
  | none => False

/-- The generator's failed-order-cooldown gate, same JS-truthy pattern. -/
def failedCooldownBlocks (st : StratState) (symbol : String) (now : ℤ) : Prop :=
  match st.failedSignalCooldowns symbol with
  | some ts => ts ≠ 0 ∧ now - ts < FAILED_SIGNAL_COOLDOWN_MS
  | none => False

/-! ### Signal generation -/

/-- The volume ratio computed by `generateSignal` step 2: volume of the most
recently *completed* candle (`history[history.length - 2]`) over the
20-period average of the history with the incomplete last candle removed
(`history.slice(0, -1)`). `none` when the average-volume call throws. -/
def volumeRatioOf (history : List PriceData) : Option ℚ :=
  (calculateAverageVolume (dropLastOne history) 20).map
    (fun avg => (history.getD (history.length - 2) defaultPriceData).volume / avg)

/-- Steps 1–5 of `generateSignal` (trend gate → volume gate → momentum gate →
structure gate → signal construction), as a function of the rolling window. -/
def signalGates (sq : ℚ → ℚ) (symbol : String) (history : List PriceData) :
    Option Signal :=
  let closePrices := history.map (·.close)
  let currentPrice := lastD closePrices 0
  let lastCompleteVolume := (history.getD (history.length - 2) defaultPriceData).volume
  -- STEP 1: trend detection (EMA stack)
  let emaStackTrend := detectEMAStack closePrices
  if emaStackTrend = .SIDEWAYS then none
  else
    let direction : Direction := if emaStackTrend = .BULLISH then .LONG else .SHORT
    -- STEP 2: volume confirmation
    match calculateAverageVolume (dropLastOne history) 20 with
    | none => none
    | some avgVolume =>
      -- decimal.js `dividedBy` of a zero average yields NaN (0/0) or
      -- ±Infinity, and `lessThan(1.5)` is then true only for a negative
      -- numerator, so a zero average rejects only a negative completed-bucket
      -- volume; a nonzero average compares the exact ratio
      let volumeGateRejects : Bool :=
        if avgVolume = 0 then lastCompleteVolume < 0
        else lastCompleteVolume / avgVolume < VOLUME_MULTIPLIER
      if volumeGateRejects then none
      else
        -- STEP 3: momentum score
        match calculateMomentumScore sq history direction with
        | none => none
        | some mom =>
          if mom.score < MOMENTUM_THRESHOLD then none
          else
            -- STEP 4: price structure confirmation
            let priceStructure := detectPriceStructure history 10
            if direction = .LONG ∧ priceStructure = .LOWER_LOWS then none
            else if direction = .SHORT ∧ priceStructure = .HIGHER_HIGHS then none
            else if priceStructure = .CHOPPY then none
            else
              -- STEP 5: generate the signal
              let side := if direction = .LONG then OrderSide.BUY else OrderSide.SELL
              let entryPrice := currentPrice
              let stopLoss :=
                if direction = .LONG then entryPrice * (1 - STOP_LOSS_PERCENT / 100)
                else entryPrice * (1 + STOP_LOSS_PERCENT / 100)
              let takeProfit :=
                if direction = .LONG then entryPrice * (1 + TAKE_PROFIT_THRESHOLD / 100)
                else entryPrice * (1 - TAKE_PROFIT_THRESHOLD / 100)
              some ⟨symbol, side, entryPrice, stopLoss, some takeProfit, mom.score,
                "MOMENTUM"⟩

/-- `generateSignal`, as a pure function of the strategy state, the clock and
the symbol. Returns the optional signal together with the state after the
call (the call's only writes are removals of expired cooldown entries; a
thrown indicator error is caught by the source's `try`/`catch` and becomes
`none`). -/
def generateSignal (sq : ℚ → ℚ) (st : StratState) (now : ℤ) (symbol : String) :
    Option Signal × StratState :=
  let history := st.priceHistory symbol
  -- need 200 candles for the full EMA stack
  if history.length < 200 then (none, st)
  -- already have an active position/signal for this symbol
  else if (st.activeSignals symbol).isSome then (none, st)
  else
    -- loss cooldown: `if (cooldownTimestamp)` is a JS truthiness test, so a
    -- stored timestamp of 0 is falsy and the whole block — blocking and the
    -- expiry deletion alike — is skipped; a truthy (nonzero) timestamp
    -- blocks while unexpired and is deleted once expired
    let lossBlocked : Bool :=
      match st.lossCooldowns symbol with
      | some ts => ts ≠ 0 ∧ now - ts < LOSS_COOLDOWN_MS
      | none => false
    if lossBlocked then (none, st)
    else
      let st1 :=
        match st.lossCooldowns symbol with
        | some ts =>
          if ts ≠ 0 ∧ LOSS_COOLDOWN_MS ≤ now - ts then
            { st with lossCooldowns := mapDel st.lossCooldowns symbol }
          else st
        | none => st
      -- failed-signal cooldown: same JS-truthy pattern
      let failedBlocked : Bool :=
        match st1.failedSignalCooldowns symbol with
        | some ts => ts ≠ 0 ∧ now - ts < FAILED_SIGNAL_COOLDOWN_MS
        | none => false
      if failedBlocked then (none, st1)
      else
        let st2 :=
          match st1.failedSignalCooldowns symbol with
          | some ts =>
            if ts ≠ 0 ∧ FAILED_SIGNAL_COOLDOWN_MS ≤ now - ts then
              { st1 with failedSignalCooldowns := mapDel st1.failedSignalCooldowns symbol }
            else st1
          | none => st1
        (signalGates sq symbol history, st2)

/-! ### Position lifecycle -/

/-- `registerExistingPosition`: adopt an exchange-reported open position.
When a persisted trailing stop exists for the symbol it is reused verbatim
(the signal's stop loss is overwritten with the persisted stop level and the
trailing-stop entry is left untouched); otherwise fresh trailing state is
seeded at the reported entry price and persisted. -/
def registerExistingPosition (st : StratState) (symbol : String) (side : OrderSide)
    (entryPrice : ℚ) (now : ℤ) (takeProfitPercent : Option ℚ) : StratState :=
  let trailingStopPct := getTrailingStopPercent symbol
  let stopLoss0 :=
    if side = .BUY then entryPrice * (1 - trailingStopPct / 100)
    else entryPrice * (1 + trailingStopPct / 100)
  let takeProfit := takeProfitPercent.map (fun tpp =>
    if side = .BUY then entryPrice * (1 + tpp / 100) else entryPrice * (1 - tpp / 100))
  match st.trailingStops symbol with
  | some existingTrailing =>
    -- use the persisted high/stop (do not reset to entry price); the stored
    -- signal's stopLoss is updated to the persisted stop level
    { st with
      activeSignals := mapSet st.activeSignals symbol
        ⟨symbol, side, entryPrice, existingTrailing.stop, takeProfit, 1,
          "Existing position on restart"⟩
      positionOpenedAt := mapSet st.positionOpenedAt symbol now }
  | none =>
    -- no persisted state: initialise the trailing stop at the entry price
    saveTrailingStops
      { st with
        activeSignals := mapSet st.activeSignals symbol
          ⟨symbol, side, entryPrice, stopLoss0, takeProfit, 1,
            "Existing position on restart"⟩
        positionOpenedAt := mapSet st.positionOpenedAt symbol now
        trailingStops := mapSet st.trailingStops symbol ⟨entryPrice, stopLoss0⟩ }

/-- `executeSignal`, as a pure state transformer. External observations are
parameters: `exchangePosition` is the result of the pre-flight
`getPositions()` lookup for the symbol, `quantityOk` is whether the position
size survives `roundToSizeIncrement`, and `orderOk` is whether the market
entry order is accepted by the gateway. -/
def executeSignal (st : StratState) (sig : Signal) (now : ℤ)
    (exchangePosition : Option (OrderSide × ℚ)) (cfgTakeProfitPercent : Option ℚ)
    (quantityOk : Bool) (orderOk : Bool) : StratState :=
  -- double-check: no duplicate position for this symbol
  if (st.activeSignals sig.symbol).isSome then st
  else
    -- re-check the loss cooldown at execution time (`if (cooldownTimestamp)`
    -- is a JS truthiness test: a stored timestamp of 0 is falsy)
    let lossBlocked : Bool :=
      match st.lossCooldowns sig.symbol with
      | some ts => ts ≠ 0 ∧ now - ts < LOSS_COOLDOWN_MS
      | none => false
    if lossBlocked then st
    else
      match exchangePosition with
      | some (side, entry) =>
        -- position already exists on the exchange: register it instead
        registerExistingPosition st sig.symbol side entry now cfgTakeProfitPercent
      | none =>
        -- `!signal.entryPrice || !signal.stopLoss` (JS falsiness: 0 is falsy)
        if sig.entryPrice = 0 ∨ sig.stopLoss = 0 then st
        else if ¬quantityOk then st
        else
          -- reserve the slot BEFORE placing the order
          let st1 :=
            { st with
              activeSignals := mapSet st.activeSignals sig.symbol sig
              positionOpenedAt := mapSet st.positionOpenedAt sig.symbol now }
          if ¬orderOk then
            -- order failed: release the reservation, start failed-order cooldown
            { st1 with
              activeSignals := mapDel st1.activeSignals sig.symbol
              positionOpenedAt := mapDel st1.positionOpenedAt sig.symbol
              failedSignalCooldowns := mapSet st1.failedSignalCooldowns sig.symbol now }
          else
            -- order placed: initialise and persist the trailing stop
            saveTrailingStops
              { st1 with
                trailingStops :=
                  mapSet st1.trailingStops sig.symbol ⟨sig.entryPrice, sig.stopLoss⟩ }

/-- The bookkeeping run on every full position close: drop the active signal,
the trailing stop (rewriting the persistence file), the partial-profit flag
and the timers. -/
def positionCleanup (st : StratState) (symbol : String) : StratState :=
  let st1 := removePersistedTrailingStop
    { st with activeSignals := mapDel st.activeSignals symbol } symbol
  { st1 with
    partialProfitTaken := fun k => if k = symbol then false else st1.partialProfitTaken k
    positionOpenedAt := mapDel st1.positionOpenedAt symbol
    lastTrailingStopCheck := mapDel st1.lastTrailingStopCheck symbol }

/-- `closePosition`: cancel resting orders and close at market (external
effects), then start a loss cooldown iff the close reason is
`"Stop Loss Hit"`, and clean up all per-symbol state. A call for a symbol
with no active signal is a no-op. -/
def closePosition (st : StratState) (symbol : String) (reason : String)
    (now : ℤ) : StratState :=
  match st.activeSignals symbol with
  | none => st
  | some _ =>
    let st1 :=
      if reason = "Stop Loss Hit" then
        { st with lossCooldowns := mapSet st.lossCooldowns symbol now }
      else st
    positionCleanup st1 symbol

/-- The trailing-stop adoption step of `updateTrailingStops` (long: lines
709–732, short: lines 754–775): on a new favorable extreme, recompute the
candidate stop and adopt it only when it is strictly more protective than
the current stop. -/
def trailStopStep (side : OrderSide) (trailPercent : ℚ) (t : TrailingStop)
    (currentPrice : ℚ) : TrailingStop :=
  match side with
  | .BUY =>
    if t.high < currentPrice ∧ t.stop < currentPrice * (1 - trailPercent / 100) then
      ⟨currentPrice, currentPrice * (1 - trailPercent / 100)⟩
    else t
  | .SELL =>
    if currentPrice < t.high ∧ currentPrice * (1 + trailPercent / 100) < t.stop then
      ⟨currentPrice, currentPrice * (1 + trailPercent / 100)⟩
    else t

/-- `updateTrailingStops`, one monitoring tick for one symbol, as a pure
state transformer. `posMark` is the mark price of the exchange-reported
position (`none` when the exchange no longer reports one) and
`tpOrderExists` is whether a resting LIMIT order is still open for the
symbol. Gateway orders placed by the tick succeed. The second component
labels the close processed by this tick, if any. -/
def updateTrailingStops (st : StratState) (symbol : String) (now : ℤ)
    (posMark : Option ℚ) (tpOrderExists : Bool) : StratState × Option String :=
  match st.trailingStops symbol, st.activeSignals symbol with
  | some trailing, some signal =>
    match posMark with
    | none =>
      -- position no longer exists on the exchange
      if ¬tpOrderExists ∧ signal.takeProfit.isSome then
        -- the TP limit order is gone: it filled, this was a win — no cooldown
        (positionCleanup st symbol, some ("Take Profit Hit (Limit Order Filled)"))
      else
        -- closed for another reason (stop, manual, …): loss cooldown
        (positionCleanup
          { st with lossCooldowns := mapSet st.lossCooldowns symbol now } symbol,
          some ("Closed Externally"))
    | some currentPrice =>
      let st0 :=
        { st with lastTrailingStopCheck := mapSet st.lastTrailingStopCheck symbol now }
      -- trail the stop in the protective direction only (persist on adoption)
      let trailing' := trailStopStep signal.side (getTrailingStopPercent symbol)
        trailing currentPrice
      let st1 :=
        if trailing' = trailing then st0
        else saveTrailingStops
          { st0 with trailingStops := mapSet st0.trailingStops symbol trailing' }
      -- take-profit threshold check (closePartialPosition: full market exit,
      -- flag set and persisted)
      let profitPercent :=
        match signal.side with
        | .BUY => (currentPrice - signal.entryPrice) / signal.entryPrice * 100
        | .SELL => (signal.entryPrice - currentPrice) / signal.entryPrice * 100
      let st2 :=
        if ¬st1.partialProfitTaken symbol ∧ TAKE_PROFIT_THRESHOLD ≤ profitPercent then
          saveTrailingStops
            { st1 with partialProfitTaken :=
                fun k => if k = symbol then true else st1.partialProfitTaken k }
        else st1
      -- stop-hit check, strict, against the trailing values read at tick entry
      let stopHit : Bool :=
        match signal.side with
        | .BUY => currentPrice < trailing.stop
        | .SELL => trailing.stop < currentPrice
      let st3 := if stopHit then closePosition st2 symbol ("Stop Loss Hit") now else st2
      -- take-profit-hit check, strict (a second closePosition after a stop
      -- close is a no-op: the active signal is already gone)
      let tpHit : Bool :=
        match signal.takeProfit with
        | some tp =>
          match signal.side with
          | .BUY => tp < currentPrice
          | .SELL => currentPrice < tp
        | none => false
      let st4 := if tpHit then closePosition st3 symbol ("Take Profit Hit") now else st3
      (st4, if stopHit then some ("Stop Loss Hit")
            else if tpHit then some ("Take Profit Hit") else none)
  | _, _ => (st, none)

/-! ### Order-status mapping (`EnclaveClient.mapOrderStatus`) -/

/-- ASCII lower-casing of one character, as `String.prototype.toLowerCase`
acts on the status strings concerned. -/
def jsCharLower (c : Char) : Char :=
  if 'A' ≤ c ∧ c ≤ 'Z' then Char.ofNat (c.toNat + 32) else c

/-- `status?.toLowerCase() || ''` of `mapOrderStatus`. -/
def jsToLowerCase (s : String) : String := ⟨s.data.map jsCharLower⟩

/-- `EnclaveClient.mapOrderStatus`: normalise and map a gateway status
string. Unrecognised statuses fall through to the default branch, which
returns `FILLED`. -/
def mapOrderStatus (status : String) : OrderStatus :=
  let normalizedStatus := jsToLowerCase status
  if normalizedStatus = "open" ∨ normalizedStatus = "new" ∨
      normalizedStatus = "pending" then .OPEN
  else if normalizedStatus = "filled" ∨ normalizedStatus = "fullyfilled" ∨
      normalizedStatus = "fully_filled" ∨ normalizedStatus = "complete" ∨
      normalizedStatus = "completed" ∨ normalizedStatus = "executed" then .FILLED
  else if normalizedStatus = "partiallyfilled" ∨
      normalizedStatus = "partially_filled" ∨
      normalizedStatus = "partial" then .PARTIALLY_FILLED
  else if normalizedStatus = "cancelled" ∨ normalizedStatus = "canceled" then .CANCELLED
  else if normalizedStatus = "rejected" ∨ normalizedStatus = "failed" then .REJECTED
  else
    -- IMPORTANT (source comment): default to FILLED for unknown statuses
    .FILLED

/-! ## Claims -/

/-- One BUY adoption step never lowers the stored stop. -/
theorem trailStopStep_buy_mono (pct : ℚ) (t : TrailingStop) (p : ℚ) :
    t.stop ≤ (trailStopStep .BUY pct t p).stop := by
  simp only [trailStopStep]
  split
  · next h => exact le_of_lt h.2
  · exact le_refl _

/-- One SELL adoption step never raises the stored stop. -/
theorem trailStopStep_sell_mono (pct : ℚ) (t : TrailingStop) (p : ℚ) :
    (trailStopStep .SELL pct t p).stop ≤ t.stop := by
  simp only [trailStopStep]
  split
  · next h => exact le_of_lt h.2
  · exact le_refl _

/-- A fold of BUY adoption steps never lowers the stored stop. -/
theorem trailFold_buy_mono (pct : ℚ) (t : TrailingStop) (ps : List ℚ) :
    t.stop ≤ (ps.foldl (trailStopStep .BUY pct) t).stop := by
  induction ps generalizing t with
  | nil => exact le_refl _
  | cons p ps ih =>
    exact le_trans (trailStopStep_buy_mono pct t p) (ih (trailStopStep .BUY pct t p))

/-- A fold of SELL adoption steps never raises the stored stop. -/
theorem trailFold_sell_mono (pct : ℚ) (t : TrailingStop) (ps : List ℚ) :
    (ps.foldl (trailStopStep .SELL pct) t).stop ≤ t.stop := by
  induction ps generalizing t with
  | nil => exact le_refl _
  | cons p ps ih =>
    exact le_trans (ih (trailStopStep .SELL pct t p)) (trailStopStep_sell_mono pct t p)

/-- Claim C1: across every sequence of accepted trailing-stop updates the
stored stop level is monotonic in the protective direction — non-decreasing
for a long (side BUY), non-increasing for a short (side SELL) — and a
candidate stop that is not strictly more protective than the current one is
never adopted (the state is left unchanged). -/
theorem trailing_stop_monotonic (pct : ℚ) (t : TrailingStop) (ps : List ℚ) (p : ℚ)
    (hbuy : p * (1 - pct / 100) ≤ t.stop) (hsell : t.stop ≤ p * (1 + pct / 100)) :
    t.stop ≤ (ps.foldl (trailStopStep .BUY pct) t).stop ∧
    (ps.foldl (trailStopStep .SELL pct) t).stop ≤ t.stop ∧
    trailStopStep .BUY pct t p = t ∧
    trailStopStep .SELL pct t p = t := by
  refine ⟨trailFold_buy_mono pct t ps, trailFold_sell_mono pct t ps, ?_, ?_⟩
  · simp only [trailStopStep]
    exact if_neg (fun h => absurd h.2 (not_lt.mpr hbuy))
  · simp only [trailStopStep]
    exact if_neg (fun h => absurd h.2 (not_lt.mpr hsell))

/-- Witness for C1 at the concrete trailing state (high 100, stop 95),
update prices [110, 104, 120] and non-protective candidate price 94. -/
theorem trailing_stop_monotonic_witness :
    (95 : ℚ) ≤ (([110, 104, 120] : List ℚ).foldl (trailStopStep .BUY 5) ⟨100, 95⟩).stop ∧
    (([110, 104, 120] : List ℚ).foldl (trailStopStep .SELL 5) ⟨100, 95⟩).stop ≤ 95 ∧
    trailStopStep .BUY 5 ⟨100, 95⟩ 94 = ⟨100, 95⟩ ∧
    trailStopStep .SELL 5 ⟨100, 95⟩ 94 = ⟨100, 95⟩ :=
  trailing_stop_monotonic 5 ⟨100, 95⟩ [110, 104, 120] 94
    (by norm_num) (by norm_num)

/-- Concrete state for the Scenario C run: one active long position on
BTC-USD.P, entry 100, initial trailing state (high 100, stop 95), 5% trail,
profit already taken and no resting take-profit target. -/
def scenarioCState : StratState where
  priceHistory := fun _ => []
  activeSignals := fun k =>
    if k = "BTC-USD.P" then
      some ⟨"BTC-USD.P", .BUY, 100, 95, none, 1, "Existing position on restart"⟩
    else none
  trailingStops := fun k => if k = "BTC-USD.P" then some ⟨100, 95⟩ else none
  lossCooldowns := fun _ => none
  failedSignalCooldowns := fun _ => none
  partialProfitTaken := fun k => k = "BTC-USD.P"
  positionOpenedAt := fun _ => none
  lastTrailingStopCheck := fun _ => none
  persistedFile := fun _ => none

/-- Claim C2: long position, entry 100, trail percent 5. A monitoring tick at
mark 110 adopts stop 110 × (1 − 0.05) = 104.5 and closes nothing; a
subsequent tick at 104.4 (strictly below the stop) closes the position with
reason "Stop Loss Hit"; a tick at exactly 104.5 closes nothing — the
stop-hit comparison is strict. -/
theorem scenarioC_trailing_stop_run :
    ((updateTrailingStops scenarioCState ("BTC-USD.P") 1000 (some 110) true).1.trailingStops
        ("BTC-USD.P") = some ⟨110, 104.5⟩) ∧
    ((updateTrailingStops scenarioCState ("BTC-USD.P") 1000 (some 110) true).2 = none) ∧
    ((updateTrailingStops
        (updateTrailingStops scenarioCState ("BTC-USD.P") 1000 (some 110) true).1
        ("BTC-USD.P") 1001 (some 104.4) true).2 = some ("Stop Loss Hit")) ∧
    ((updateTrailingStops
        (updateTrailingStops scenarioCState ("BTC-USD.P") 1000 (some 110) true).1
        ("BTC-USD.P") 1002 (some 104.5) true).2 = none) := by
  norm_num [scenarioCState, updateTrailingStops, trailStopStep, closePosition,
    positionCleanup, removePersistedTrailingStop, saveTrailingStops, mapSet, mapDel,
    getTrailingStopPercent, STOP_LOSS_PERCENT, TAKE_PROFIT_THRESHOLD]

/-- Concrete state with one active long position on BTC-USD.P whose signal
carries a take-profit target (entry 100, stop 95, target 101.3). -/
def activeLongState : StratState where
  priceHistory := fun _ => []
  activeSignals := fun k =>
    if k = "BTC-USD.P" then
      some ⟨"BTC-USD.P", .BUY, 100, 95, some 101.3, 0.72, "MOMENTUM"⟩
    else none
  trailingStops := fun k => if k = "BTC-USD.P" then some ⟨100, 95⟩ else none
  lossCooldowns := fun _ => none
  failedSignalCooldowns := fun _ => none
  partialProfitTaken := fun _ => false
  positionOpenedAt := fun _ => none
  lastTrailingStopCheck := fun _ => none
  persistedFile := fun _ => none

/-- Counterexample to claim C3 as stated: a close that is neither a stop-hit
nor a take-profit — the exchange no longer reports the position (e.g. it was
closed manually) while the take-profit LIMIT order is still resting — DOES
create a loss cooldown (`lossCooldowns` is set to the close time), although
the claim says a manual/non-stop close creates none. -/
theorem manual_close_cooldown_cex :
    ((updateTrailingStops activeLongState ("BTC-USD.P") 5000 none true).1.lossCooldowns
      ("BTC-USD.P") = some 5000) ∧
    ((updateTrailingStops activeLongState ("BTC-USD.P") 5000 none true).2 =
      some ("Closed Externally")) := by
  norm_num [activeLongState, updateTrailingStops, positionCleanup,
    removePersistedTrailingStop, saveTrailingStops, mapSet, mapDel]

/-- Claim C3 (amended): `closePosition` with reason "Stop Loss Hit" always
creates a loss cooldown whose expiry is exactly the close time plus
`LOSS_COOLDOWN_MS`; `closePosition` with any other reason ("Take Profit
Hit", "Manual Close", …) never touches the cooldown map; when the position
has disappeared from the exchange, the monitoring tick creates no cooldown
only when it can attribute the close to the filled take-profit LIMIT order
(the order is gone and a target was set) — every other externally-detected
close starts a loss cooldown at the detection time. -/
theorem loss_cooldown_classification :
    (∀ st sym now, (st.activeSignals sym).isSome →
      (closePosition st sym ("Stop Loss Hit") now).lossCooldowns sym = some now ∧
      ∀ u, lossCooldownActive (closePosition st sym ("Stop Loss Hit") now) sym u ↔
        u < now + LOSS_COOLDOWN_MS) ∧
    (∀ st sym reason now k, reason ≠ "Stop Loss Hit" →
      (closePosition st sym reason now).lossCooldowns k = st.lossCooldowns k) ∧
    (∀ st sym now k t sig, st.trailingStops sym = some t →
      st.activeSignals sym = some sig → sig.takeProfit.isSome →
      (updateTrailingStops st sym now none false).1.lossCooldowns k =
        st.lossCooldowns k) ∧
    (∀ st sym now t sig tpEx, st.trailingStops sym = some t →
      st.activeSignals sym = some sig → ¬(tpEx = false ∧ sig.takeProfit.isSome) →
      (updateTrailingStops st sym now none tpEx).1.lossCooldowns sym = some now) := by
  refine ⟨?_, ?_, ?_, ?_⟩
  · intro st sym now h
    obtain ⟨sig, hsig⟩ := Option.isSome_iff_exists.mp h
    have hset : (closePosition st sym ("Stop Loss Hit") now).lossCooldowns sym =
        some now := by
      simp [closePosition, hsig, positionCleanup, removePersistedTrailingStop,
        saveTrailingStops, mapSet]
    refine ⟨hset, fun u => ?_⟩
    simp only [lossCooldownActive, hset]
    omega
  · intro st sym reason now k hne
    cases hsig : st.activeSignals sym with
    | none => simp [closePosition, hsig]
    | some sig =>
      simp [closePosition, hsig, hne, positionCleanup, removePersistedTrailingStop,
        saveTrailingStops]
  · intro st sym now k t sig ht hsig htp
    simp [updateTrailingStops, ht, hsig, htp, positionCleanup,
      removePersistedTrailingStop, saveTrailingStops]
  · intro st sym now t sig tpEx ht hsig hnot
    simp [updateTrailingStops, ht, hsig, hnot, positionCleanup,
      removePersistedTrailingStop, saveTrailingStops, mapSet]

/-- Witness for C3 (amended) at the concrete active-long state: a stop-hit
close at time 5000 records the cooldown (expiring exactly at
5000 + LOSS_COOLDOWN_MS, still blocked at 5001), a "Manual Close" through
`closePosition` records none, and an external close attributed to the filled
take-profit order records none. -/
theorem loss_cooldown_classification_witness :
    ((closePosition activeLongState ("BTC-USD.P") ("Stop Loss Hit") 5000).lossCooldowns
      ("BTC-USD.P") = some 5000) ∧
    lossCooldownActive (closePosition activeLongState ("BTC-USD.P") ("Stop Loss Hit") 5000)
      ("BTC-USD.P") 5001 ∧
    ((closePosition activeLongState ("BTC-USD.P") ("Manual Close") 5000).lossCooldowns
      ("BTC-USD.P") = none) ∧
    ((updateTrailingStops activeLongState ("BTC-USD.P") 5000 none false).1.lossCooldowns
      ("BTC-USD.P") = none) := by
  have h := loss_cooldown_classification
  have h1 := h.1 activeLongState ("BTC-USD.P") 5000 (by simp [activeLongState])
  refine ⟨h1.1, (h1.2 5001).mpr (by norm_num [LOSS_COOLDOWN_MS]), ?_, ?_⟩
  · exact (h.2.1 activeLongState ("BTC-USD.P") ("Manual Close") 5000 ("BTC-USD.P")
      (by decide)).trans (by simp [activeLongState])
  · exact (h.2.2.1 activeLongState ("BTC-USD.P") 5000 ("BTC-USD.P") ⟨100, 95⟩
      ⟨"BTC-USD.P", .BUY, 100, 95, some 101.3, 0.72, "MOMENTUM"⟩
      (by simp [activeLongState]) (by simp [activeLongState]) (by simp)).trans
      (by simp [activeLongState])

/-- A strategy state with no history, no positions and no cooldowns. -/
def emptyState : StratState where
  priceHistory := fun _ => []
  activeSignals := fun _ => none
  trailingStops := fun _ => none
  lossCooldowns := fun _ => none
  failedSignalCooldowns := fun _ => none
  partialProfitTaken := fun _ => false
  positionOpenedAt := fun _ => none
  lastTrailingStopCheck := fun _ => none
  persistedFile := fun _ => none

/-- Claim C4: recovery reuses persisted trailing-stop state verbatim. When a
persisted entry exists for the symbol, `registerExistingPosition` leaves the
trailing stop exactly as loaded (the high-water mark is not reset to the
entry price), sets the recovered signal's stop loss to the persisted stop
level, and rewrites nothing to disk; only without a persisted entry is fresh
state seeded at the reported entry price. `loadTrailingStops` itself copies
every disk record verbatim. -/
theorem recovery_uses_persisted_state :
    (∀ st sym side entry now tpPct t, st.trailingStops sym = some t →
      (registerExistingPosition st sym side entry now tpPct).trailingStops sym = some t ∧
      ((registerExistingPosition st sym side entry now tpPct).activeSignals sym).map
        (·.stopLoss) = some t.stop ∧
      (registerExistingPosition st sym side entry now tpPct).persistedFile =
        st.persistedFile) ∧
    (∀ st sym side entry now tpPct, st.trailingStops sym = none →
      (registerExistingPosition st sym side entry now tpPct).trailingStops sym =
        some ⟨entry,
          if side = .BUY then entry * (1 - getTrailingStopPercent sym / 100)
          else entry * (1 + getTrailingStopPercent sym / 100)⟩) ∧
    (∀ disk st k, (loadTrailingStops disk st).trailingStops k =
      match disk k with
      | some r => some ⟨r.high, r.stop⟩
      | none => st.trailingStops k) := by
  refine ⟨?_, ?_, ?_⟩
  · intro st sym side entry now tpPct t ht
    refine ⟨?_, ?_, ?_⟩ <;>
      simp [registerExistingPosition, ht, mapSet]
  · intro st sym side entry now tpPct ht
    cases side <;> simp [registerExistingPosition, ht, mapSet, saveTrailingStops]
  · intro disk st k
    simp [loadTrailingStops]

/-- Witness for C4: restart with a persisted record (high 110, stop 104.5)
for BTC-USD.P — above the reported entry 100 — loaded from disk and then
registered: the recovered trailing state keeps high 110 / stop 104.5 and the
recovered signal's stop loss is 104.5; registering on an empty state instead
seeds the trailing stop at the entry price with a 5% stop. -/
theorem recovery_uses_persisted_state_witness :
    ((registerExistingPosition
        (loadTrailingStops
          (fun k => if k = "BTC-USD.P" then some ⟨110, 104.5, false⟩ else none)
          emptyState)
        ("BTC-USD.P") .BUY 100 0 none).trailingStops ("BTC-USD.P") =
      some ⟨110, 104.5⟩) ∧
    (((registerExistingPosition
        (loadTrailingStops
          (fun k => if k = "BTC-USD.P" then some ⟨110, 104.5, false⟩ else none)
          emptyState)
        ("BTC-USD.P") .BUY 100 0 none).activeSignals ("BTC-USD.P")).map (·.stopLoss) =
      some 104.5) ∧
    ((registerExistingPosition emptyState ("BTC-USD.P") .BUY 100 0 none).trailingStops
      ("BTC-USD.P") = some ⟨100, 95⟩) := by
  have h := recovery_uses_persisted_state
  have hload : (loadTrailingStops
      (fun k => if k = "BTC-USD.P" then some ⟨110, 104.5, false⟩ else none)
      emptyState).trailingStops ("BTC-USD.P") = some ⟨110, 104.5⟩ := by
    rw [h.2.2]
    simp
  have h1 := h.1 (loadTrailingStops
      (fun k => if k = "BTC-USD.P" then some ⟨110, 104.5, false⟩ else none)
      emptyState)
    ("BTC-USD.P") .BUY 100 0 none ⟨110, 104.5⟩ hload
  refine ⟨h1.1, h1.2.1, ?_⟩
  have h2 := h.2.1 emptyState ("BTC-USD.P") .BUY 100 0 none (by simp [emptyState])
  rw [h2]
  norm_num [getTrailingStopPercent, STOP_LOSS_PERCENT]

/-- Claim C5: when the entry order placement fails during `executeSignal`
(for a symbol with no active signal, outside any loss cooldown, with a
non-degenerate signal and a tradeable quantity), the pre-attempt state is
restored — the active-signal reservation and the opened-at marker are
exactly as before — a failed-order cooldown is recorded at the failure time,
and the loss cooldowns, trailing stops and persistence file are untouched. -/
theorem failed_order_releases_reservation
    (st : StratState) (sig : Signal) (now : ℤ) (tpPct : Option ℚ)
    (hactive : st.activeSignals sig.symbol = none)
    (hopen : st.positionOpenedAt sig.symbol = none)
    (hcool : ¬lossCooldownActive st sig.symbol now)
    (hentry : sig.entryPrice ≠ 0) (hstop : sig.stopLoss ≠ 0) :
    (∀ k,
      (executeSignal st sig now none tpPct true false).activeSignals k =
        st.activeSignals k ∧
      (executeSignal st sig now none tpPct true false).positionOpenedAt k =
        st.positionOpenedAt k ∧
      (executeSignal st sig now none tpPct true false).lossCooldowns k =
        st.lossCooldowns k ∧
      (executeSignal st sig now none tpPct true false).trailingStops k =
        st.trailingStops k ∧
      (executeSignal st sig now none tpPct true false).persistedFile k =
        st.persistedFile k ∧
      (k ≠ sig.symbol →
        (executeSignal st sig now none tpPct true false).failedSignalCooldowns k =
          st.failedSignalCooldowns k)) ∧
    (executeSignal st sig now none tpPct true false).failedSignalCooldowns
      sig.symbol = some now := by
  have hb : (match st.lossCooldowns sig.symbol with
      | some ts => !decide (ts = 0) && decide (now - ts < LOSS_COOLDOWN_MS)
      | none => false) = false := by
    cases hc : st.lossCooldowns sig.symbol with
    | none => rfl
    | some ts =>
      have ht : ¬(now - ts < LOSS_COOLDOWN_MS) := fun hlt =>
        hcool (by simp [lossCooldownActive, hc, hlt])
      simp [ht]
  constructor
  · intro k
    by_cases hk : k = sig.symbol <;>
      simp [executeSignal, hactive, hopen, hb, hentry, hstop, mapSet, mapDel, hk]
  · simp [executeSignal, hactive, hb, hentry, hstop, mapSet, mapDel]

/-- Witness for C5: executing a fresh long signal on the empty state with a
rejected entry order leaves no reservation, no trailing stop, no loss
cooldown and nothing persisted, and records only the failed-order cooldown
for the signal's symbol. -/
theorem failed_order_releases_reservation_witness :
    ((executeSignal emptyState
        ⟨"BTC-USD.P", .BUY, 100, 95, some 101.3, 0.72, "MOMENTUM"⟩ 42 none none
        true false).activeSignals ("BTC-USD.P") = none) ∧
    ((executeSignal emptyState
        ⟨"BTC-USD.P", .BUY, 100, 95, some 101.3, 0.72, "MOMENTUM"⟩ 42 none none
        true false).trailingStops ("BTC-USD.P") = none) ∧
    ((executeSignal emptyState
        ⟨"BTC-USD.P", .BUY, 100, 95, some 101.3, 0.72, "MOMENTUM"⟩ 42 none none
        true false).lossCooldowns ("BTC-USD.P") = none) ∧
    ((executeSignal emptyState
        ⟨"BTC-USD.P", .BUY, 100, 95, some 101.3, 0.72, "MOMENTUM"⟩ 42 none none
        true false).persistedFile ("BTC-USD.P") = none) ∧
    ((executeSignal emptyState
        ⟨"BTC-USD.P", .BUY, 100, 95, some 101.3, 0.72, "MOMENTUM"⟩ 42 none none
        true false).failedSignalCooldowns ("BTC-USD.P") = some 42) ∧
    ((executeSignal emptyState
        ⟨"BTC-USD.P", .BUY, 100, 95, some 101.3, 0.72, "MOMENTUM"⟩ 42 none none
        true false).failedSignalCooldowns ("ETH-USD.P") = none) := by
  have h := failed_order_releases_reservation emptyState
    ⟨"BTC-USD.P", .BUY, 100, 95, some 101.3, 0.72, "MOMENTUM"⟩ 42 none
    (by simp [emptyState]) (by simp [emptyState])
    (by simp [lossCooldownActive, emptyState]) (by norm_num) (by norm_num)
  have hb := h.1 ("BTC-USD.P")
  have he := h.1 ("ETH-USD.P")
  refine ⟨hb.1.trans (by simp [emptyState]), hb.2.2.2.1.trans (by simp [emptyState]),
    hb.2.2.1.trans (by simp [emptyState]), hb.2.2.2.2.1.trans (by simp [emptyState]),
    h.2, (he.2.2.2.2.2 (by decide)).trans (by simp [emptyState])⟩

/-- State with a 200-candle history, an expired loss cooldown (truthy
timestamp 1) and an unexpired failed-order cooldown (timestamp 1000000) on
BTC-USD.P. -/
def expiredLossState : StratState :=
  { emptyState with
    priceHistory := fun k =>
      if k = "BTC-USD.P" then List.replicate 200 defaultPriceData else []
    lossCooldowns := fun k => if k = "BTC-USD.P" then some 1 else none
    failedSignalCooldowns := fun k => if k = "BTC-USD.P" then some 1000000 else none }

set_option maxRecDepth 8000 in
/-- Counterexample to claim C6 as stated: at time 1200001 the BTC-USD.P loss
cooldown of `expiredLossState` (truthy timestamp 1) has just expired while
the failed-order cooldown is still active, so `generateSignal` returns no
signal — but it DOES write state: the expired loss-cooldown entry is deleted
on the way to the failed-cooldown check, so the refusal is not entirely
side-effect-free. -/
theorem generator_refusal_writes_state_cex :
    ((generateSignal (fun q => q) expiredLossState 1200001 ("BTC-USD.P")).1 = none) ∧
    ((generateSignal (fun q => q) expiredLossState 1200001
      ("BTC-USD.P")).2.lossCooldowns ("BTC-USD.P") = none) ∧
    (expiredLossState.lossCooldowns ("BTC-USD.P") = some 1) := by
  refine ⟨?_, ?_, by simp [expiredLossState, emptyState]⟩ <;>
    norm_num [generateSignal, expiredLossState, emptyState, mapDel,
      LOSS_COOLDOWN_MS, FAILED_SIGNAL_COOLDOWN_MS]

/-- Claim C6 (amended): `generateSignal` refuses to emit a signal — inside
the generator, before any gate is evaluated, for any window contents — for a
symbol with an active signal, an unexpired loss cooldown whose stored
timestamp is JS-truthy (nonzero), or an unexpired failed-order cooldown with
a truthy timestamp. In the first two cases the state is completely
untouched; in the failed-cooldown case the only possible write is the
removal of the symbol's already-expired (truthy) loss-cooldown entry. -/
theorem generator_refuses_blocked_instruments :
    (∀ sq st now sym, (st.activeSignals sym).isSome →
      generateSignal sq st now sym = (none, st)) ∧
    (∀ sq st now sym, lossCooldownBlocks st sym now →
      generateSignal sq st now sym = (none, st)) ∧
    (∀ sq st now sym, failedCooldownBlocks st sym now →
      (generateSignal sq st now sym).1 = none ∧
      ((generateSignal sq st now sym).2 = st ∨
        (∃ ts, st.lossCooldowns sym = some ts ∧ ts ≠ 0 ∧
          LOSS_COOLDOWN_MS ≤ now - ts ∧
          (generateSignal sq st now sym).2 =
            { st with lossCooldowns := mapDel st.lossCooldowns sym }))) := by
  refine ⟨?_, ?_, ?_⟩
  · intro sq st now sym h
    by_cases hlen : (st.priceHistory sym).length < 200 <;>
      simp [generateSignal, hlen, h]
  · intro sq st now sym h
    by_cases hlen : (st.priceHistory sym).length < 200
    · simp [generateSignal, hlen]
    · by_cases hact : (st.activeSignals sym).isSome
      · simp [generateSignal, hlen, hact]
      · have hactn : st.activeSignals sym = none :=
          Option.not_isSome_iff_eq_none.mp hact
        cases hc : st.lossCooldowns sym with
        | none => exact absurd h (by simp [lossCooldownBlocks, hc])
        | some ts =>
          have hts : ts ≠ 0 ∧ now - ts < LOSS_COOLDOWN_MS := by
            simpa [lossCooldownBlocks, hc] using h
          simp [generateSignal, hlen, hactn, hc, hts.1, hts.2]
  · intro sq st now sym h
    by_cases hlen : (st.priceHistory sym).length < 200
    · simp [generateSignal, hlen]
    · by_cases hact : (st.activeSignals sym).isSome
      · simp [generateSignal, hlen, hact]
      · have hactn : st.activeSignals sym = none :=
          Option.not_isSome_iff_eq_none.mp hact
        have hf : ∃ fts, st.failedSignalCooldowns sym = some fts ∧ fts ≠ 0 ∧
            now - fts < FAILED_SIGNAL_COOLDOWN_MS := by
          cases hfc : st.failedSignalCooldowns sym with
          | none => exact absurd h (by simp [failedCooldownBlocks, hfc])
          | some fts =>
            exact ⟨fts, rfl, by simpa [failedCooldownBlocks, hfc] using h⟩
        obtain ⟨fts, hfc, hfz, hflt⟩ := hf
        cases hc : st.lossCooldowns sym with
        | none =>
          refine ⟨?_, Or.inl ?_⟩ <;>
            simp [generateSignal, hlen, hactn, hc, hfc, hfz, hflt]
        | some ts =>
          by_cases htz : ts = 0
          · subst htz
            refine ⟨?_, Or.inl ?_⟩ <;>
              simp [generateSignal, hlen, hactn, hc, hfc, hfz, hflt]
          · by_cases hts : now - ts < LOSS_COOLDOWN_MS
            · refine ⟨?_, Or.inl ?_⟩ <;>
                simp [generateSignal, hlen, hactn, hc, htz, hts]
            · have hle := not_lt.mp hts
              refine ⟨?_, Or.inr ⟨ts, rfl, htz, hle, ?_⟩⟩ <;>
                simp [generateSignal, hlen, hactn, hc, htz, hts, hle, hfc, hfz, hflt]

/-- Witness for C6 at concrete states: an active signal refuses with the
state untouched; an unexpired loss cooldown (truthy timestamp 5, queried at
6) refuses with the state untouched; an unexpired failed-order cooldown
(truthy timestamp 5) refuses. -/
theorem generator_refuses_blocked_instruments_witness :
    (generateSignal (fun q => q) activeLongState 1 ("BTC-USD.P") =
      (none, activeLongState)) ∧
    (generateSignal (fun q => q)
      { emptyState with lossCooldowns := fun k => if k = "BTC-USD.P" then some 5 else none }
      6 ("BTC-USD.P") =
      (none, { emptyState with
        lossCooldowns := fun k => if k = "BTC-USD.P" then some 5 else none })) ∧
    ((generateSignal (fun q => q)
      { emptyState with
        failedSignalCooldowns := fun k => if k = "BTC-USD.P" then some 5 else none }
      6 ("BTC-USD.P")).1 = none) := by
  have h := generator_refuses_blocked_instruments
  refine ⟨h.1 (fun q => q) activeLongState 1 ("BTC-USD.P") (by simp [activeLongState]),
    h.2.1 (fun q => q) _ 6 ("BTC-USD.P")
      (by norm_num [lossCooldownBlocks, emptyState, LOSS_COOLDOWN_MS]),
    (h.2.2 (fun q => q) _ 6 ("BTC-USD.P")
      (by norm_num [failedCooldownBlocks, emptyState, FAILED_SIGNAL_COOLDOWN_MS])).1⟩

/-- Claim C7 (amended): the volume gate of `generateSignal` compares the
volume of the most recently completed bucket (`history[history.length − 2]`;
the in-progress last bucket is excluded from the numerator and, via
`history.slice(0, −1)`, from the 20-bucket averaging window) against the
20-bucket average. A signal can be emitted only when either the completed
bucket's volume is at least `VOLUME_MULTIPLIER` (1.5) times a nonzero
average — reaching the multiplier exactly passes, since the code rejects
only when the ratio is strictly below it — or the average is zero and the
completed bucket's volume is nonnegative (the decimal NaN/Infinity
comparison lets that through); in particular any window whose ratio against
a nonzero average is 1.2 yields no signal. -/
theorem volume_gate_ratio (sq : ℚ → ℚ) (st : StratState) (now : ℤ) (sym : String) :
    (∀ sig, (generateSignal sq st now sym).1 = some sig →
      ∃ avg, calculateAverageVolume (dropLastOne (st.priceHistory sym)) 20 = some avg ∧
        ((avg = 0 ∧ 0 ≤ ((st.priceHistory sym).getD ((st.priceHistory sym).length - 2)
            defaultPriceData).volume) ∨
         (avg ≠ 0 ∧ VOLUME_MULTIPLIER ≤
          ((st.priceHistory sym).getD ((st.priceHistory sym).length - 2)
            defaultPriceData).volume / avg))) ∧
    (∀ avg, calculateAverageVolume (dropLastOne (st.priceHistory sym)) 20 = some avg →
      avg ≠ 0 →
      ((st.priceHistory sym).getD ((st.priceHistory sym).length - 2)
        defaultPriceData).volume / avg = 1.2 →
      (generateSignal sq st now sym).1 = none) := by
  have hcases : (generateSignal sq st now sym).1 = none ∨
      (generateSignal sq st now sym).1 =
        signalGates sq sym (st.priceHistory sym) := by
    simp only [generateSignal]
    split_ifs <;> simp
  have main : ∀ sig, (generateSignal sq st now sym).1 = some sig →
      ∃ avg, calculateAverageVolume (dropLastOne (st.priceHistory sym)) 20 = some avg ∧
        ((avg = 0 ∧ 0 ≤ ((st.priceHistory sym).getD ((st.priceHistory sym).length - 2)
            defaultPriceData).volume) ∨
         (avg ≠ 0 ∧ VOLUME_MULTIPLIER ≤
          ((st.priceHistory sym).getD ((st.priceHistory sym).length - 2)
            defaultPriceData).volume / avg)) := by
    intro sig h
    have hg : signalGates sq sym (st.priceHistory sym) = some sig := by
      rcases hcases with hn | he
      · rw [hn] at h
        cases h
      · rw [he] at h
        exact h
    simp only [signalGates] at hg
    split at hg
    · simp at hg
    · split at hg
      · simp at hg
      · rename_i avg havg
        by_cases hz : avg = 0
        · rw [if_pos hz] at hg
          split at hg
          · simp at hg
          · rename_i hneg
            refine ⟨avg, havg, Or.inl ⟨hz, ?_⟩⟩
            simpa using hneg
        · rw [if_neg hz] at hg
          split at hg
          · simp at hg
          · rename_i hlt
            refine ⟨avg, havg, Or.inr ⟨hz, ?_⟩⟩
            exact not_lt.mp (by simpa using hlt)
  refine ⟨main, ?_⟩
  intro avg havg havg0 hratio
  cases hres : (generateSignal sq st now sym).1 with
  | none => rfl
  | some sig =>
    obtain ⟨avg', havg', hdisj⟩ := main sig hres
    rw [havg'] at havg
    cases havg
    rcases hdisj with ⟨hz, _⟩ | ⟨_, hge⟩
    · exact absurd hz havg0
    · rw [hratio] at hge
      norm_num [VOLUME_MULTIPLIER] at hge

/-- Folding `+` from an arbitrary start is the start plus the sum. -/
theorem listSum_foldl_init (l : List ℚ) (a : ℚ) :
    l.foldl (· + ·) a = a + listSum l := by
  induction l generalizing a with
  | nil => simp [listSum]
  | cons x xs ih =>
    simp only [List.foldl_cons, listSum, List.foldl_cons, zero_add]
    rw [ih (a + x), ih x]
    ring

/-- `listSum` distributes over append. -/
theorem listSum_append (l1 l2 : List ℚ) :
    listSum (l1 ++ l2) = listSum l1 + listSum l2 := by
  simp only [listSum, List.foldl_append]
  rw [listSum_foldl_init]
  rfl

/-- `listSum` of a constant list. -/
theorem listSum_replicate (n : ℕ) (x : ℚ) :
    listSum (List.replicate n x) = n * x := by
  induction n with
  | zero => simp [listSum]
  | succ k ih =>
    rw [List.replicate_succ]
    show List.foldl (· + ·) (0 + x) (List.replicate k x) = _
    rw [listSum_foldl_init, ih]
    push_cast
    ring

/-- The Scenario B window: 200 buckets of constant price 100, unit volume
everywhere except the most recently completed bucket (index 198), whose
volume 57/47 makes the completed-bucket/20-average ratio exactly 1.2. -/
def scenarioBHistory : List PriceData :=
  List.replicate 198 ⟨100, 100, 100, 1, 0⟩ ++
    [⟨100, 100, 100, 57/47, 0⟩, ⟨100, 100, 100, 1, 0⟩]

set_option maxRecDepth 20000 in
/-- The 20-bucket average volume of the Scenario B window, excluding the
in-progress bucket, is 95/94. -/
theorem scenarioB_avgVolume :
    calculateAverageVolume (dropLastOne scenarioBHistory) 20 = some (95 / 94) := by
  have hdrop : dropLastOne scenarioBHistory =
      List.replicate 198 (⟨100, 100, 100, 1, 0⟩ : PriceData) ++
        [⟨100, 100, 100, 57/47, 0⟩] := by
    simp [dropLastOne, scenarioBHistory, List.take_append_eq_append_take,
      List.take_of_length_le]
  rw [hdrop]
  have hslice : sliceLast 20
      (List.replicate 198 (⟨100, 100, 100, 1, 0⟩ : PriceData) ++
        [⟨100, 100, 100, 57/47, 0⟩]) =
      List.replicate 19 (⟨100, 100, 100, 1, 0⟩ : PriceData) ++
        [⟨100, 100, 100, 57/47, 0⟩] := by
    simp [sliceLast, List.drop_append_eq_append_drop, List.drop_replicate]
  simp only [calculateAverageVolume, hslice]
  rw [if_neg (by simp)]
  simp [List.map_append, List.map_replicate, listSum_append, listSum_replicate, listSum]
  norm_num

set_option maxRecDepth 20000 in
/-- The most recently completed bucket of the Scenario B window has volume
57/47, and its ratio to the 20-bucket average is exactly 1.2. -/
theorem scenarioB_ratio :
    (scenarioBHistory.getD (scenarioBHistory.length - 2) defaultPriceData).volume /
      (95 / 94) = 1.2 := by
  have hlen : scenarioBHistory.length = 200 := by
    simp [scenarioBHistory]
  rw [hlen]
  have hget : scenarioBHistory.getD 198 defaultPriceData =
      ⟨100, 100, 100, 57/47, 0⟩ := by
    rw [scenarioBHistory, List.getD_append_right _ _ _ _ (by simp)]
    simp
  show (scenarioBHistory.getD 198 defaultPriceData).volume / (95 / 94) = 1.2
  rw [hget]
  norm_num

set_option maxRecDepth 20000 in
/-- Witness for C7: on a strategy state whose BTC-USD.P window is the
Scenario B window (completed-bucket/20-average volume ratio exactly 1.2,
below the 1.5 multiplier), `generateSignal` emits no signal. -/
theorem volume_gate_ratio_witness :
    (generateSignal (fun q => q)
      { emptyState with
        priceHistory := fun k => if k = "BTC-USD.P" then scenarioBHistory else [] }
      0 ("BTC-USD.P")).1 = none := by
  refine (volume_gate_ratio (fun q => q) _ 0 ("BTC-USD.P")).2 (95 / 94) ?_ (by norm_num) ?_
  · show calculateAverageVolume (dropLastOne scenarioBHistory) 20 = some (95 / 94)
    exact scenarioB_avgVolume
  · show (scenarioBHistory.getD (scenarioBHistory.length - 2) defaultPriceData).volume /
        (95 / 94) = 1.2
    exact scenarioB_ratio

/-- `calculateSMA` succeeds whenever the window is long enough. -/
theorem calculateSMA_isSome (prices : List ℚ) (periods : ℕ)
    (h : periods ≤ prices.length) : (calculateSMA prices periods).isSome := by
  simp [calculateSMA, not_lt.mpr h]

/-- `calculateEMA` succeeds whenever the window is long enough. -/
theorem calculateEMA_isSome (prices : List ℚ) (periods : ℕ)
    (h : periods ≤ prices.length) : (calculateEMA prices periods).isSome := by
  have hsma : ((calculateSMA (prices.take periods) periods)).isSome :=
    calculateSMA_isSome _ _ (by simp [h])
  obtain ⟨sma, hsome⟩ := Option.isSome_iff_exists.mp hsma
  simp [calculateEMA, not_lt.mpr h, hsome]

/-- `calculateRSI` succeeds whenever the window has `periods + 1` samples. -/
theorem calculateRSI_isSome (prices : List PriceData) (periods : ℕ)
    (h : periods + 1 ≤ prices.length) : (calculateRSI prices periods).isSome := by
  simp only [calculateRSI, not_lt.mpr h, if_false]
  split <;> simp

/-- `calculateBollingerBands` succeeds whenever the window is long enough. -/
theorem calculateBollingerBands_isSome (sq : ℚ → ℚ) (prices : List ℚ)
    (periods : ℕ) (stdDev : ℚ) (h : periods ≤ prices.length) :
    (calculateBollingerBands sq prices periods stdDev).isSome := by
  obtain ⟨sma, hsome⟩ := Option.isSome_iff_exists.mp (calculateSMA_isSome prices periods h)
  simp [calculateBollingerBands, not_lt.mpr h, hsome]

/-- `calculateStochastic` succeeds whenever the window has 17 samples. -/
theorem calculateStochastic_isSome (prices : List PriceData)
    (h : 14 + 3 ≤ prices.length) : (calculateStochastic prices).isSome := by
  simp [calculateStochastic, not_lt.mpr h]

/-- `optTraverse` succeeds when the body succeeds on every element. -/
theorem optTraverse_isSome (f : α → Option β) (l : List α)
    (h : ∀ a ∈ l, (f a).isSome) : (optTraverse f l).isSome := by
  induction l with
  | nil => simp [optTraverse]
  | cons a as ih =>
    obtain ⟨b, hb⟩ := Option.isSome_iff_exists.mp (h a (by simp))
    obtain ⟨bs, hbs⟩ := Option.isSome_iff_exists.mp
      (ih (fun x hx => h x (by simp [hx])))
    simp [optTraverse, hb, hbs]

/-- `calculateMACD` succeeds whenever the window has 35 samples: every
prefix the inner loop visits has at least 26 elements, so the insufficient-
data branch of `calculateEMA` is unreachable there. -/
theorem calculateMACD_isSome (prices : List ℚ) (h : 26 + 9 ≤ prices.length) :
    (calculateMACD prices).isSome := by
  obtain ⟨fastEMA, hfast⟩ := Option.isSome_iff_exists.mp
    (calculateEMA_isSome prices 12 (by omega))
  obtain ⟨slowEMA, hslow⟩ := Option.isSome_iff_exists.mp
    (calculateEMA_isSome prices 26 (by omega))
  have htrav : (optTraverse
      (fun i =>
        match calculateEMA (prices.take i) 12, calculateEMA (prices.take i) 26 with
        | some fast, some slow => some (fast - slow)
        | _, _ => none)
      (List.range' 26 (prices.length - 26 + 1))).isSome := by
    refine optTraverse_isSome _ _ (fun i hi => ?_)
    have hrange := List.mem_range'_1.mp hi
    have hlen : (prices.take i).length = i := by
      simp
      omega
    obtain ⟨fast, hf⟩ := Option.isSome_iff_exists.mp
      (calculateEMA_isSome (prices.take i) 12 (by omega))
    obtain ⟨slow, hs⟩ := Option.isSome_iff_exists.mp
      (calculateEMA_isSome (prices.take i) 26 (by omega))
    simp [hf, hs]
  obtain ⟨macdValues, hvals⟩ := Option.isSome_iff_exists.mp htrav
  have hscrut : (if 9 ≤ macdValues.length then calculateEMA macdValues 9
      else some (fastEMA - slowEMA)).isSome := by
    split
    · rename_i hlen9
      exact calculateEMA_isSome macdValues 9 hlen9
    · simp
  obtain ⟨sl, hsl⟩ := Option.isSome_iff_exists.mp hscrut
  simp [calculateMACD, not_lt.mpr h, hfast, hslow, hvals, hsl]

/-- Claim C10: `calculateMomentumScore` is total. A window of fewer than 200
samples yields score 0 with an empty component record (no exception), and on
any window of at least 200 samples every insufficient-data branch of the
indicators it invokes (RSI needs 15, MACD 35, EMA up to 200, Bollinger 20,
Stochastic 17 samples) is unreachable, so the call succeeds. -/
theorem momentum_score_total (sq : ℚ → ℚ) (prices : List PriceData)
    (direction : Direction) :
    (prices.length < 200 → calculateMomentumScore sq prices direction = some ⟨0, []⟩) ∧
    (200 ≤ prices.length → (calculateMomentumScore sq prices direction).isSome) := by
  constructor
  · intro h
    simp [calculateMomentumScore, h]
  · intro h
    have hclen : (prices.map (·.close)).length = prices.length := by simp
    obtain ⟨rsi, hrsi⟩ := Option.isSome_iff_exists.mp
      (calculateRSI_isSome prices 14 (by omega))
    obtain ⟨macd, hmacd⟩ := Option.isSome_iff_exists.mp
      (calculateMACD_isSome (prices.map (·.close)) (by omega))
    obtain ⟨ema20, h20⟩ := Option.isSome_iff_exists.mp
      (calculateEMA_isSome (prices.map (·.close)) 20 (by omega))
    obtain ⟨ema50, h50⟩ := Option.isSome_iff_exists.mp
      (calculateEMA_isSome (prices.map (·.close)) 50 (by omega))
    obtain ⟨ema200, h200⟩ := Option.isSome_iff_exists.mp
      (calculateEMA_isSome (prices.map (·.close)) 200 (by omega))
    obtain ⟨bb, hbb⟩ := Option.isSome_iff_exists.mp
      (calculateBollingerBands_isSome sq (prices.map (·.close)) 20 2 (by omega))
    obtain ⟨st, hst⟩ := Option.isSome_iff_exists.mp
      (calculateStochastic_isSome prices (by omega))
    simp [calculateMomentumScore, not_lt.mpr h, hrsi, hmacd, h20, h50, h200, hbb, hst]

set_option maxRecDepth 20000 in
/-- Witness for C10: the empty window returns score 0 with no components;
the constant 200-sample window succeeds. -/
theorem momentum_score_total_witness :
    (calculateMomentumScore (fun q => q) [] .LONG = some ⟨0, []⟩) ∧
    (calculateMomentumScore (fun q => q)
      (List.replicate 200 defaultPriceData) .LONG).isSome :=
  ⟨(momentum_score_total (fun q => q) [] .LONG).1 (by simp),
    (momentum_score_total (fun q => q) (List.replicate 200 defaultPriceData) .LONG).2
      (by simp)⟩

/-- The RSI sub-score lies in [0, 0.20] (0 outside the favorable zone). -/
theorem rsiSubScore_bounds (d : Direction) (x : ℚ) :
    0 ≤ rsiSubScore d x ∧ rsiSubScore d x ≤ 0.20 := by
  cases d <;> simp only [rsiSubScore] <;> split_ifs <;> norm_num

/-- The MACD sub-score lies in [0, 0.20]. -/
theorem macdSubScore_bounds (d : Direction) (m : MACDResult) :
    0 ≤ macdSubScore d m ∧ macdSubScore d m ≤ 0.20 := by
  cases d <;> simp only [macdSubScore] <;> split_ifs <;> norm_num

/-- The EMA-alignment sub-score lies in [0, 0.25]. -/
theorem emaSubScore_bounds (d : Direction) (p e20 e50 e200 : ℚ) :
    0 ≤ emaSubScore d p e20 e50 e200 ∧ emaSubScore d p e20 e50 e200 ≤ 0.25 := by
  cases d <;> simp only [emaSubScore] <;> split_ifs <;> norm_num

/-- The Bollinger-position sub-score lies in [0, 0.15]. -/
theorem bollingerSubScore_bounds (d : Direction) (p : ℚ) (b : BollingerBands) :
    0 ≤ bollingerSubScore d p b ∧ bollingerSubScore d p b ≤ 0.15 := by
  cases d <;> simp only [bollingerSubScore] <;> split_ifs <;> norm_num

/-- The stochastic sub-score lies in [0, 0.20]. -/
theorem stochasticSubScore_bounds (d : Direction) (s : Stochastic) :
    0 ≤ stochasticSubScore d s ∧ stochasticSubScore d s ≤ 0.20 := by
  cases d <;> simp only [stochasticSubScore] <;> split_ifs <;> norm_num

/-- Claim C8: for every window of at least 200 samples and either direction,
the momentum score is the sum of exactly five component sub-scores — RSI,
MACD, EMA, Bollinger, Stochastic — bounded by the weights 0.20, 0.20, 0.25,
0.15, 0.20 respectively (each 0 outside its favorable zone, by the sub-score
definitions), the weights sum to 1, and the returned score lies in [0, 1]. -/
theorem momentum_score_decomposition (sq : ℚ → ℚ) (prices : List PriceData)
    (direction : Direction) (h : 200 ≤ prices.length) :
    ∃ r m e b s,
      calculateMomentumScore sq prices direction =
        some ⟨r + m + e + b + s,
          [("rsi", r), ("macd", m), ("ema", e), ("bollinger", b), ("stochastic", s)]⟩ ∧
      (0 ≤ r ∧ r ≤ 0.20) ∧ (0 ≤ m ∧ m ≤ 0.20) ∧ (0 ≤ e ∧ e ≤ 0.25) ∧
      (0 ≤ b ∧ b ≤ 0.15) ∧ (0 ≤ s ∧ s ≤ 0.20) ∧
      (0.20 + 0.20 + 0.25 + 0.15 + 0.20 : ℚ) = 1 ∧
      0 ≤ r + m + e + b + s ∧ r + m + e + b + s ≤ 1 := by
  obtain ⟨rsi, hrsi⟩ := Option.isSome_iff_exists.mp
    (calculateRSI_isSome prices 14 (by omega))
  obtain ⟨macd, hmacd⟩ := Option.isSome_iff_exists.mp
    (calculateMACD_isSome (prices.map (·.close)) (by simp; omega))
  obtain ⟨ema20, h20⟩ := Option.isSome_iff_exists.mp
    (calculateEMA_isSome (prices.map (·.close)) 20 (by simp; omega))
  obtain ⟨ema50, h50⟩ := Option.isSome_iff_exists.mp
    (calculateEMA_isSome (prices.map (·.close)) 50 (by simp; omega))
  obtain ⟨ema200, h200⟩ := Option.isSome_iff_exists.mp
    (calculateEMA_isSome (prices.map (·.close)) 200 (by simp; omega))
  obtain ⟨bb, hbb⟩ := Option.isSome_iff_exists.mp
    (calculateBollingerBands_isSome sq (prices.map (·.close)) 20 2 (by simp; omega))
  obtain ⟨stoch, hstoch⟩ := Option.isSome_iff_exists.mp
    (calculateStochastic_isSome prices (by omega))
  refine ⟨rsiSubScore direction rsi, macdSubScore direction macd,
    emaSubScore direction (lastD (prices.map (·.close)) 0) ema20 ema50 ema200,
    bollingerSubScore direction (lastD (prices.map (·.close)) 0) bb,
    stochasticSubScore direction stoch, ?_, rsiSubScore_bounds direction rsi,
    macdSubScore_bounds direction macd, emaSubScore_bounds direction _ ema20 ema50 ema200,
    bollingerSubScore_bounds direction _ bb, stochasticSubScore_bounds direction stoch,
    by norm_num, ?_, ?_⟩
  · simp [calculateMomentumScore, not_lt.mpr h, hrsi, hmacd, h20, h50, h200, hbb, hstoch]
  · have h1 := rsiSubScore_bounds direction rsi
    have h2 := macdSubScore_bounds direction macd
    have h3 := emaSubScore_bounds direction (lastD (prices.map (·.close)) 0) ema20 ema50 ema200
    have h4 := bollingerSubScore_bounds direction (lastD (prices.map (·.close)) 0) bb
    have h5 := stochasticSubScore_bounds direction stoch
    linarith [h1.1, h2.1, h3.1, h4.1, h5.1]
  · have h1 := rsiSubScore_bounds direction rsi
    have h2 := macdSubScore_bounds direction macd
    have h3 := emaSubScore_bounds direction (lastD (prices.map (·.close)) 0) ema20 ema50 ema200
    have h4 := bollingerSubScore_bounds direction (lastD (prices.map (·.close)) 0) bb
    have h5 := stochasticSubScore_bounds direction stoch
    have : (0.20 + 0.20 + 0.25 + 0.15 + 0.20 : ℚ) = 1 := by norm_num
    linarith [h1.2, h2.2, h3.2, h4.2, h5.2]

set_option maxRecDepth 20000 in
/-- Witness for C8: the decomposition and the [0, 1] bound hold at the
concrete constant 200-sample window in either direction. -/
theorem momentum_score_decomposition_witness :
    (∃ r m e b s,
      calculateMomentumScore (fun q => q) (List.replicate 200 defaultPriceData) .LONG =
        some ⟨r + m + e + b + s,
          [("rsi", r), ("macd", m), ("ema", e), ("bollinger", b), ("stochastic", s)]⟩ ∧
      (0 ≤ r ∧ r ≤ 0.20) ∧ (0 ≤ m ∧ m ≤ 0.20) ∧ (0 ≤ e ∧ e ≤ 0.25) ∧
      (0 ≤ b ∧ b ≤ 0.15) ∧ (0 ≤ s ∧ s ≤ 0.20) ∧
      (0.20 + 0.20 + 0.25 + 0.15 + 0.20 : ℚ) = 1 ∧
      0 ≤ r + m + e + b + s ∧ r + m + e + b + s ≤ 1) ∧
    (∃ r m e b s,
      calculateMomentumScore (fun q => q) (List.replicate 200 defaultPriceData) .SHORT =
        some ⟨r + m + e + b + s,
          [("rsi", r), ("macd", m), ("ema", e), ("bollinger", b), ("stochastic", s)]⟩ ∧
      (0 ≤ r ∧ r ≤ 0.20) ∧ (0 ≤ m ∧ m ≤ 0.20) ∧ (0 ≤ e ∧ e ≤ 0.25) ∧
      (0 ≤ b ∧ b ≤ 0.15) ∧ (0 ≤ s ∧ s ≤ 0.20) ∧
      (0.20 + 0.20 + 0.25 + 0.15 + 0.20 : ℚ) = 1 ∧
      0 ≤ r + m + e + b + s ∧ r + m + e + b + s ≤ 1) :=
  ⟨momentum_score_decomposition (fun q => q) (List.replicate 200 defaultPriceData)
      .LONG (by simp),
    momentum_score_decomposition (fun q => q) (List.replicate 200 defaultPriceData)
      .SHORT (by simp)⟩

/-- One EMA step on the value already reached is a fixed point, so a
constant run of the input leaves the accumulator unchanged. -/
theorem emaFold_replicate_const (m c : ℚ) (k : ℕ) :
    List.foldl (fun ema p => p * m + ema * (1 - m)) c (List.replicate k c) = c := by
  induction k with
  | zero => rfl
  | succ j ih =>
    rw [List.replicate_succ]
    simp only [List.foldl_cons]
    rw [show c * m + c * (1 - m) = c by ring]
    exact ih

/-- `calculateEMA` on a window that starts with at least `periods` copies of
a constant: the seed SMA is the constant, the constant prefix is a fixed
point, and only the variable suffix is folded. -/
theorem calculateEMA_const_prefix (c : ℚ) (tl : List ℚ) (a periods : ℕ)
    (hp : 0 < periods) (hpa : periods ≤ a) :
    calculateEMA (List.replicate a c ++ tl) periods =
      some (List.foldl
        (fun ema p => p * (2 / ((periods : ℚ) + 1)) + ema * (1 - 2 / ((periods : ℚ) + 1)))
        c tl) := by
  have hlen : periods ≤ (List.replicate a c ++ tl).length := by
    simp only [List.length_append, List.length_replicate]
    omega
  have htake : (List.replicate a c ++ tl).take periods = List.replicate periods c := by
    rw [List.take_append_eq_append_take, List.take_replicate]
    have h0 : periods - (List.replicate a c).length = 0 := by
      simp only [List.length_replicate]
      omega
    rw [h0]
    simp [min_eq_left hpa]
  have hne : ((periods : ℚ)) ≠ 0 := by
    exact_mod_cast Nat.pos_iff_ne_zero.mp hp
  have hsma : calculateSMA (List.replicate periods c) periods = some c := by
    rw [calculateSMA, if_neg (by simp)]
    rw [show sliceLast periods (List.replicate periods c) = List.replicate periods c by
      simp [sliceLast]]
    rw [listSum_replicate, mul_comm, mul_div_assoc, div_self hne, mul_one]
  have hdrop : (List.replicate a c ++ tl).drop periods =
      List.replicate (a - periods) c ++ tl := by
    rw [List.drop_append_eq_append_drop, List.drop_replicate]
    have h0 : periods - (List.replicate a c).length = 0 := by
      simp only [List.length_replicate]
      omega
    rw [h0, List.drop_zero]
  rw [calculateEMA, if_neg (not_lt.mpr hlen), htake, hsma, hdrop]
  simp only []
  rw [List.foldl_append, emaFold_replicate_const (2 / ((periods : ℚ) + 1)) c (a - periods)]

/-- The base bucket of the ratio-1.5 window: 180 identical leading candles. -/
def cexBase : PriceData := ⟨100.5, 99.5, 100, 1, 0⟩

/-- The last 20 candles of the ratio-1.5 window: constant closes through
index 185, then an alternating net-up tail (seven −0.1 / +0.15 pairs, so the
14-period RSI is exactly 60); a high spike of 110 at index 190 keeps the
stochastic %K low and rising; the completed bucket at index 198 carries
volume 57/37 so the completed-bucket/20-average volume ratio is exactly
3/2. -/
def cexTail : List PriceData :=
  [⟨100.5, 99.5, 100, 1, 0⟩, ⟨100.5, 99.5, 100, 1, 0⟩, ⟨100.5, 99.5, 100, 1, 0⟩,
   ⟨100.5, 99.5, 100, 1, 0⟩, ⟨100.5, 99.5, 100, 1, 0⟩, ⟨100.5, 99.5, 100, 1, 0⟩,
   ⟨100.5, 99.5, 99.9, 1, 0⟩, ⟨100.5, 99.5, 100.05, 1, 0⟩,
   ⟨100.5, 99.5, 99.95, 1, 0⟩, ⟨100.5, 99.5, 100.1, 1, 0⟩,
   ⟨110, 99.6, 100, 1, 0⟩, ⟨100.6, 99.6, 100.15, 1, 0⟩,
   ⟨100.6, 99.6, 100.05, 1, 0⟩, ⟨100.6, 99.6, 100.2, 1, 0⟩,
   ⟨100.6, 99.6, 100.1, 1, 0⟩, ⟨100.6, 99.6, 100.25, 1, 0⟩,
   ⟨100.6, 99.6, 100.15, 1, 0⟩, ⟨100.6, 99.6, 100.3, 1, 0⟩,
   ⟨100.6, 99.6, 100.2, 57/37, 0⟩, ⟨100.6, 99.6, 100.35, 1, 0⟩]

/-- The full 200-candle ratio-1.5 window. -/
def cexWindow : List PriceData := List.replicate 180 cexBase ++ cexTail

/-- The closes of `cexTail`. -/
def cexTailCloses : List ℚ :=
  [100, 100, 100, 100, 100, 100, 99.9, 100.05, 99.95, 100.1, 100, 100.15,
   100.05, 100.2, 100.1, 100.25, 100.15, 100.3, 100.2, 100.35]

set_option maxRecDepth 20000 in
/-- The closes of the ratio-1.5 window. -/
theorem cexWindow_closes :
    cexWindow.map (·.close) = List.replicate 180 (100 : ℚ) ++ cexTailCloses := by
  rw [cexWindow, List.map_append, List.map_replicate]
  rfl

set_option maxRecDepth 20000 in
/-- The ratio-1.5 window has exactly 200 candles. -/
theorem cexWindow_length : cexWindow.length = 200 := by
  simp [cexWindow, cexTail]

set_option maxRecDepth 20000 in
/-- The 200-period EMA of the ratio-1.5 window's closes (no fold happens:
it is the plain average of all 200 closes). -/
theorem cex_ema200 :
    calculateEMA (List.replicate 180 (100 : ℚ) ++ cexTailCloses) 200 =
      some (80007 / 800) := by
  have hlen : (List.replicate 180 (100 : ℚ) ++ cexTailCloses).length = 200 := by
    simp [cexTailCloses]
  rw [calculateEMA, if_neg (by rw [hlen]; norm_num),
    List.take_of_length_le (by rw [hlen])]
  have hsma : calculateSMA (List.replicate 180 (100 : ℚ) ++ cexTailCloses) 200 =
      some (80007 / 800) := by
    rw [calculateSMA, if_neg (by rw [hlen]; norm_num)]
    rw [show sliceLast 200 (List.replicate 180 (100 : ℚ) ++ cexTailCloses) =
      List.replicate 180 (100 : ℚ) ++ cexTailCloses by
        rw [sliceLast, hlen]
        norm_num]
    rw [listSum_append, listSum_replicate]
    norm_num [cexTailCloses, listSum, List.foldl_cons, List.foldl_nil]
  rw [hsma]
  rw [show (List.replicate 180 (100 : ℚ) ++ cexTailCloses).drop 200 = [] from
    List.drop_eq_nil_of_le (by rw [hlen])]
  rfl

set_option maxRecDepth 40000 in
/-- Trend gate on the ratio-1.5 window: the EMA stack is BULLISH. -/
theorem cex_trend :
    detectEMAStack (List.replicate 180 (100 : ℚ) ++ cexTailCloses) = .BULLISH := by
  rw [detectEMAStack, if_neg (by simp [cexTailCloses]),
    calculateEMA_const_prefix 100 cexTailCloses 180 20 (by norm_num) (by norm_num),
    calculateEMA_const_prefix 100 cexTailCloses 180 50 (by norm_num) (by norm_num),
    cex_ema200]
  simp only []
  rw [if_pos ⟨by norm_num [cexTailCloses, List.foldl_cons, List.foldl_nil],
    by norm_num [cexTailCloses, List.foldl_cons, List.foldl_nil]⟩]

set_option maxRecDepth 20000 in
/-- Last close of the ratio-1.5 window. -/
theorem cex_lastClose :
    lastD (List.replicate 180 (100 : ℚ) ++ cexTailCloses) 0 = 100.35 := by
  rw [lastD, List.getLast?_append_of_ne_nil _ (by simp [cexTailCloses])]
  norm_num [cexTailCloses]

/-- Zipping two equal constant lists pointwise yields a constant list. -/
theorem zipWith_replicate_same (f : α → α → β) (a : α) (n : ℕ) :
    List.zipWith f (List.replicate n a) (List.replicate n a) =
      List.replicate n (f a a) := by
  induction n with
  | zero => rfl
  | succ k ih =>
    simp only [List.replicate_succ, List.zipWith_cons_cons, ih]

set_option maxRecDepth 20000 in
/-- RSI of the ratio-1.5 window: the last 14 close changes are seven +0.15
gains against seven 0.1 losses, so RS = 3/2 and RSI is exactly 60. -/
theorem cex_rsi : calculateRSI cexWindow 14 = some 60 := by
  rw [calculateRSI, if_neg (by rw [cexWindow_length]; norm_num)]
  have hdrop1 : cexWindow.drop 1 = List.replicate 179 cexBase ++ cexTail := by
    rw [cexWindow, List.drop_append_eq_append_drop, List.drop_replicate]
    simp
  have hre : cexWindow = List.replicate 179 cexBase ++ (cexBase :: cexTail) := by
    rw [cexWindow, show (180 : ℕ) = 179 + 1 from rfl, List.replicate_succ',
      List.append_assoc]
    rfl
  have hchanges :
      List.zipWith (fun cur prev => cur.close - prev.close) (cexWindow.drop 1) cexWindow =
      List.replicate 179 (0 : ℚ) ++
        List.zipWith (fun cur prev => cur.close - prev.close) cexTail
          (cexBase :: cexTail) := by
    conv_lhs => rw [hdrop1, hre]
    rw [List.zipWith_append _ _ _ _ _ (by simp), zipWith_replicate_same]
    rw [show (cexBase.close - cexBase.close : ℚ) = 0 by norm_num]
  rw [hchanges]
  simp only []
  have hslice : sliceLast 14
      (List.replicate 179 (0 : ℚ) ++
        List.zipWith (fun cur prev => cur.close - prev.close) cexTail
          (cexBase :: cexTail)) =
      (List.zipWith (fun cur prev => cur.close - prev.close) cexTail
        (cexBase :: cexTail)).drop 6 := by
    rw [sliceLast]
    rw [show (List.replicate 179 (0 : ℚ) ++
        List.zipWith (fun cur prev => cur.close - prev.close) cexTail
          (cexBase :: cexTail)).length = 199 by simp [cexTail, cexBase]]
    rw [List.drop_append_eq_append_drop, List.drop_replicate]
    simp
  rw [hslice]
  norm_num [cexTail, cexBase, listSum, List.foldl_cons, List.foldl_nil,
    List.filter, List.zipWith, abs_of_pos]

/-- `lastD` of an append with a non-empty right part reads the right part. -/
theorem lastD_append (l1 l2 : List α) (d : α) (h : l2 ≠ []) :
    lastD (l1 ++ l2) d = lastD l2 d := by
  rw [lastD, lastD, List.getLast?_append_of_ne_nil _ h]

/-- `sliceLast k` of an append whose right part has length `k` is that part. -/
theorem sliceLast_append_right (k : ℕ) (l1 l2 : List α) (h : l2.length = k) :
    sliceLast k (l1 ++ l2) = l2 := by
  rw [sliceLast, List.length_append, h, Nat.add_sub_cancel, List.drop_left]

set_option maxRecDepth 40000 in
/-- Stochastic oscillator of the ratio-1.5 window: every relevant 14-candle
window spans the 110 spike and the 99.5 lows, giving %K = 170/21 ≈ 8.1 and
%D = 470/63 ≈ 7.5 (rising %K above its average). -/
theorem cex_stoch : calculateStochastic cexWindow = some ⟨170/21, 470/63⟩ := by
  rw [calculateStochastic, if_neg (by rw [cexWindow_length]; norm_num)]
  have hsplit : List.range' 13 187 = List.range' 13 184 ++ [197, 198, 199] := by
    have h := List.range'_append 13 184 3 1
    norm_num at h
    rw [← h]
    rfl
  have hd184 : cexWindow.drop 184 = cexTail.drop 4 := by
    rw [cexWindow, List.drop_append_eq_append_drop, List.drop_replicate]
    simp
  have hd185 : cexWindow.drop 185 = cexTail.drop 5 := by
    rw [cexWindow, List.drop_append_eq_append_drop, List.drop_replicate]
    simp
  have hd186 : cexWindow.drop 186 = cexTail.drop 6 := by
    rw [cexWindow, List.drop_append_eq_append_drop, List.drop_replicate]
    simp
  simp only []
  rw [show cexWindow.length - (14 - 1) = 187 by rw [cexWindow_length],
    show (14 : ℕ) - 1 = 13 from rfl, hsplit, List.map_append]
  rw [lastD_append _ _ _ (by simp), sliceLast_append_right _ _ _ (by simp)]
  simp only [List.map_cons, List.map_nil]
  rw [show (197 : ℕ) - 14 + 1 = 184 from rfl, show (198 : ℕ) - 14 + 1 = 185 from rfl,
    show (199 : ℕ) - 14 + 1 = 186 from rfl, hd184, hd185, hd186]
  norm_num [cexTail, listMax, listMin, lastD, listSum, List.take, List.drop,
    List.foldl_cons, List.foldl_nil, max_def, min_def, defaultPriceData]

set_option maxRecDepth 40000 in
/-- Price-structure gate on the ratio-1.5 window: the last 20 candles split
into a 100.5/99.5 first half and a 110-spike/99.6 second half, so both the
high and the low rise — HIGHER_HIGHS. -/
theorem cex_structure : detectPriceStructure cexWindow 10 = .HIGHER_HIGHS := by
  rw [detectPriceStructure, if_neg (by rw [cexWindow_length]; norm_num)]
  simp only []
  rw [show sliceLast (10 * 2) cexWindow = cexTail by
    rw [cexWindow]
    exact sliceLast_append_right _ _ _ (by simp [cexTail])]
  norm_num [cexTail, listMax, listMin, List.take, List.drop, List.foldl_cons,
    List.foldl_nil, max_def, min_def]

set_option maxRecDepth 40000 in
/-- The 20-bucket average volume of the ratio-1.5 window, excluding the
in-progress last bucket: 19 unit volumes plus the completed bucket's 57/37
average to 38/37. -/
theorem cex_avgVolume :
    calculateAverageVolume (dropLastOne cexWindow) 20 = some (38/37) := by
  have hdl : dropLastOne cexWindow =
      List.replicate 179 cexBase ++ (cexBase :: cexTail.take 19) := by
    rw [dropLastOne, cexWindow_length]
    rfl
  rw [hdl]
  have hlen : (List.replicate 179 cexBase ++ (cexBase :: cexTail.take 19)).length = 199 := by
    simp [cexTail]
  rw [calculateAverageVolume, if_neg (by rw [hlen]; norm_num)]
  rw [show sliceLast 20 (List.replicate 179 cexBase ++ (cexBase :: cexTail.take 19)) =
      (cexBase :: cexTail.take 19) from
    sliceLast_append_right _ _ _ (by simp [cexTail])]
  norm_num [cexTail, cexBase, List.take, listSum, List.foldl_cons, List.foldl_nil]

set_option maxRecDepth 40000 in
/-- The most recently completed bucket of the ratio-1.5 window (index 198)
has volume 57/37 — exactly 3/2 of the 38/37 average. -/
theorem cex_numerator :
    (cexWindow.getD (cexWindow.length - 2) defaultPriceData).volume = 57/37 := by
  rw [cexWindow_length]
  have hget : cexWindow.getD (200 - 2) defaultPriceData =
      ⟨100.6, 99.6, 100.2, 57/37, 0⟩ := by
    rw [cexWindow, List.getD_append_right _ _ _ _ (by simp)]
    norm_num [cexTail, List.getD]
  rw [hget]

set_option maxRecDepth 40000 in
/-- Momentum gate on the ratio-1.5 window: RSI 60 scores 0.15, the full
bullish EMA alignment scores 0.25, and the rising sub-30 stochastic scores
0.20, so the total reaches the 0.60 threshold whatever the MACD and
Bollinger components add. -/
theorem cex_momentum :
    ∃ mom, calculateMomentumScore (fun q => q) cexWindow .LONG = some mom ∧
      MOMENTUM_THRESHOLD ≤ mom.score := by
  have hlen : (200 : ℕ) ≤ cexWindow.length := cexWindow_length.ge
  obtain ⟨macd, hmacd⟩ := Option.isSome_iff_exists.mp
    (calculateMACD_isSome (cexWindow.map (·.close))
      (by rw [List.length_map, cexWindow_length]; norm_num))
  obtain ⟨e20, h20⟩ := Option.isSome_iff_exists.mp
    (calculateEMA_isSome (cexWindow.map (·.close)) 20
      (by rw [List.length_map, cexWindow_length]; norm_num))
  obtain ⟨e50, h50⟩ := Option.isSome_iff_exists.mp
    (calculateEMA_isSome (cexWindow.map (·.close)) 50
      (by rw [List.length_map, cexWindow_length]; norm_num))
  obtain ⟨bb, hbb⟩ := Option.isSome_iff_exists.mp
    (calculateBollingerBands_isSome (fun q => q) (cexWindow.map (·.close)) 20 2
      (by rw [List.length_map, cexWindow_length]; norm_num))
  have h200 : calculateEMA (cexWindow.map (·.close)) 200 = some (80007/800) := by
    rw [cexWindow_closes]
    exact cex_ema200
  have hlast : lastD (cexWindow.map (·.close)) 0 = 100.35 := by
    rw [cexWindow_closes]
    exact cex_lastClose
  have hfold20 := calculateEMA_const_prefix (100 : ℚ) cexTailCloses 180 20
    (by norm_num) (by norm_num)
  have hfold50 := calculateEMA_const_prefix (100 : ℚ) cexTailCloses 180 50
    (by norm_num) (by norm_num)
  have h20c := h20
  have h50c := h50
  rw [cexWindow_closes] at h20c h50c
  rw [h20c] at hfold20
  rw [h50c] at hfold50
  have h2035 : e20 < 100.35 := by
    rw [Option.some_inj.mp hfold20]
    norm_num [cexTailCloses, List.foldl_cons, List.foldl_nil]
  have h5020 : e50 < e20 := by
    rw [Option.some_inj.mp hfold20, Option.some_inj.mp hfold50]
    norm_num [cexTailCloses, List.foldl_cons, List.foldl_nil]
  have h20050 : (80007/800 : ℚ) < e50 := by
    rw [Option.some_inj.mp hfold50]
    norm_num [cexTailCloses, List.foldl_cons, List.foldl_nil]
  have heq : calculateMomentumScore (fun q => q) cexWindow .LONG =
      some ⟨rsiSubScore .LONG 60 + macdSubScore .LONG macd +
        emaSubScore .LONG 100.35 e20 e50 (80007/800) +
        bollingerSubScore .LONG 100.35 bb +
        stochasticSubScore .LONG ⟨170/21, 470/63⟩,
        [(("rsi"), rsiSubScore .LONG 60), (("macd"), macdSubScore .LONG macd),
         (("ema"), emaSubScore .LONG 100.35 e20 e50 (80007/800)),
         (("bollinger"), bollingerSubScore .LONG 100.35 bb),
         (("stochastic"), stochasticSubScore .LONG ⟨170/21, 470/63⟩)]⟩ := by
    simp [calculateMomentumScore, not_lt.mpr hlen, cex_rsi, hmacd, h20, h50, h200,
      hbb, cex_stoch, hlast]
  refine ⟨_, heq, ?_⟩
  show MOMENTUM_THRESHOLD ≤ rsiSubScore .LONG 60 + macdSubScore .LONG macd +
    emaSubScore .LONG 100.35 e20 e50 (80007/800) + bollingerSubScore .LONG 100.35 bb +
    stochasticSubScore .LONG ⟨170/21, 470/63⟩
  have hrs : rsiSubScore .LONG 60 = 0.15 := by norm_num [rsiSubScore]
  have hes : emaSubScore .LONG 100.35 e20 e50 (80007/800) = 0.25 := by
    simp only [emaSubScore]
    rw [if_pos ⟨h2035, h5020, h20050⟩]
  have hss : stochasticSubScore .LONG ⟨170/21, 470/63⟩ = 0.20 := by
    norm_num [stochasticSubScore]
  have hthr : MOMENTUM_THRESHOLD = 0.60 := rfl
  rw [hthr, hrs, hes, hss]
  have hm := (macdSubScore_bounds .LONG macd).1
  have hb := (bollingerSubScore_bounds .LONG (100.35 : ℚ) bb).1
  linarith [hm, hb]

set_option maxRecDepth 40000 in
/-- All five gates of `signalGates` pass on the ratio-1.5 window: BULLISH
trend, volume ratio exactly 1.5 (not rejected, since the code rejects only a
ratio strictly below the multiplier), momentum ≥ 0.60, HIGHER_HIGHS
structure — a LONG signal is emitted. -/
theorem cex_gates : (signalGates (fun q => q) ("BTC-USD.P") cexWindow).isSome := by
  obtain ⟨mom, hmom, hscore⟩ := cex_momentum
  have htrend : detectEMAStack (cexWindow.map (·.close)) = .BULLISH := by
    rw [cexWindow_closes]
    exact cex_trend
  have hvol : (cexWindow[cexWindow.length - 2]?.getD defaultPriceData).volume = 57/37 := by
    rw [← List.getD_eq_getElem?_getD]
    exact cex_numerator
  simp only [signalGates]
  norm_num [htrend, cex_avgVolume, hmom, cex_structure,
    not_lt.mpr hscore, VOLUME_MULTIPLIER]
  rw [if_neg (by simp), if_neg (by rw [hvol]; norm_num), if_neg (by simp),
    if_neg (by simp), if_neg (by simp)]
  rfl

/-- The strategy state whose BTC-USD.P rolling window is the ratio-1.5
window (no positions, no cooldowns). -/
def cexVolState : StratState :=
  { emptyState with
    priceHistory := fun k => if k = "BTC-USD.P" then cexWindow else [] }

set_option maxRecDepth 40000 in
/-- Claim C7 — counterexample to the frozen claim's strict reading: on a
state whose window has a completed-bucket/20-average volume ratio of exactly
1.5 (volume 57/37 against average 38/37) and every other gate passing,
`generateSignal` DOES emit a signal. The ratio does not strictly exceed the
1.5 multiplier, so "only when … exceeds 1.5× the average" is false of the
program: the source rejects only a ratio strictly below the multiplier. -/
theorem volume_gate_exact_ratio_cex :
    ((generateSignal (fun q => q) cexVolState 0 ("BTC-USD.P")).1).isSome ∧
    calculateAverageVolume (dropLastOne (cexVolState.priceHistory ("BTC-USD.P"))) 20 =
      some (38/37) ∧
    ((cexVolState.priceHistory ("BTC-USD.P")).getD
        ((cexVolState.priceHistory ("BTC-USD.P")).length - 2) defaultPriceData).volume /
      (38/37) = VOLUME_MULTIPLIER := by
  refine ⟨?_, ?_, ?_⟩
  · have hhist : cexVolState.priceHistory ("BTC-USD.P") = cexWindow := rfl
    have hact : cexVolState.activeSignals ("BTC-USD.P") = none := rfl
    have hloss : cexVolState.lossCooldowns ("BTC-USD.P") = none := rfl
    have hfail : cexVolState.failedSignalCooldowns ("BTC-USD.P") = none := rfl
    have h1 : (generateSignal (fun q => q) cexVolState 0 ("BTC-USD.P")).1 =
        signalGates (fun q => q) ("BTC-USD.P") cexWindow := by
      simp [generateSignal, hhist, hact, hloss, hfail, cexWindow_length]
    rw [h1]
    exact cex_gates
  · show calculateAverageVolume (dropLastOne cexWindow) 20 = some (38/37)
    exact cex_avgVolume
  · show (cexWindow.getD (cexWindow.length - 2) defaultPriceData).volume / (38/37) =
      VOLUME_MULTIPLIER
    rw [cex_numerator]
    norm_num [VOLUME_MULTIPLIER]

/-- Claim C9 — demonstration of the divergence: `mapOrderStatus` maps the
unrecognised gateway status "closed_by_liquidation" (and any other string
outside the recognised lists, e.g. "expired") to the terminal `FILLED`
status via its default branch. There is no `Unknown` member in the
`OrderStatus` enum at all, so an unrecognised status is silently treated as
filled instead of the explicit do-not-assume-closed `Unknown` the spec
requires. -/
theorem mapOrderStatus_unknown_is_filled :
    mapOrderStatus ("closed_by_liquidation") = OrderStatus.FILLED ∧
    mapOrderStatus ("expired") = OrderStatus.FILLED ∧
    mapOrderStatus ("EXPIRED") = OrderStatus.FILLED ∧
    mapOrderStatus ("Open") = OrderStatus.OPEN ∧
    mapOrderStatus ("cancelled") = OrderStatus.CANCELLED := by
  decide

end EnclaveBot
